import Mathlib

/-!
Verification of the Mission Control models/routing frontend.

This file shallowly embeds the pure view-derivation logic of the
dashboard's model-management pages (the ModelsWorkspace table page, the
AgentRoutingEditPage, the CatalogModelFormPage, the ProviderAuthFormPage
and the ModelsSyncPage) and proves properties of that logic.

Modelling conventions:
* fetched rows are Lean structures mirroring the generated API types,
  with JSON timestamps that the code feeds through Date.getTime
  represented directly by their numeric result (an Int), and a model's
  settings object represented by its key list (the code only ever takes
  Object.keys(...).length of it);
* nullable fields are Option; JavaScript string truthiness (where null,
  undefined and the empty string are all falsy) is modelled by strOpt,
  which collapses a nullable string to "" exactly as the frontend's
  truthiness tests and `?? ""` defaults do;
* String.prototype.localeCompare is modelled as code-point lexicographic
  comparison (localeCmp), toLowerCase as a character-wise lowering
  (jsLower), trim as whitespace stripping at both ends (jsTrim), and
  `a || b` on strings as jsOr;
* a JS Map built from an id-keyed list is looked up with mapGet (last
  binding wins, as for Map); Array.prototype.sort with a comparator is
  modelled as Mathlib's stable insertion sort by the comparator's
  "not greater" relation.
-/

/-- Sort direction of a table column, as the SortDirection union type. -/
inductive SortDirection where
  | asc
  | desc
deriving DecidableEq

/-- Routing status of an agent, as the RoutingStatus union type. -/
inductive RoutingStatus where
  | override
  | default
  | unconfigured
deriving DecidableEq

/-- Label shown for a routing status (routingStatusLabel in the source). -/
def routingStatusLabel (status : RoutingStatus) : String :=
  if status = RoutingStatus.override then "Primary override"
  else if status = RoutingStatus.default then "Using default"
  else "No primary"

/-- JavaScript string truthiness collapse: a nullable string is falsy
exactly when it is null/undefined or empty, so the frontend's
`x ? ... : ...` tests and `x ?? ""` defaults both factor through this. -/
def strOpt (x : Option String) : String := x.getD ""

/-- Model of `a || b` for strings: the right operand when the left is
empty (falsy), otherwise the left operand. -/
def jsOr (a b : String) : String := if a = "" then b else a

/-- Character-list comparison underlying the model of localeCompare. -/
def charsCmp : List Char → List Char → Ordering
  | [], [] => Ordering.eq
  | [], _ :: _ => Ordering.lt
  | _ :: _, [] => Ordering.gt
  | a :: as, b :: bs =>
    if a < b then Ordering.lt
    else if b < a then Ordering.gt
    else charsCmp as bs

/-- Model of String.prototype.localeCompare (sign only): code-point
lexicographic comparison. -/
def localeCmp (a b : String) : Ordering := charsCmp a.data b.data

/-- localeCmp yields strictly-less. -/
def localeLt (a b : String) : Prop := localeCmp a b = Ordering.lt

/-- localeCmp yields less-or-equal. -/
def localeLe (a b : String) : Prop := localeCmp a b ≠ Ordering.gt

instance (a b : String) : Decidable (localeLt a b) := by
  unfold localeLt; infer_instance

instance (a b : String) : Decidable (localeLe a b) := by
  unfold localeLe; infer_instance

/-- Model of String.prototype.toLowerCase: character-wise lowering. -/
def jsLower (s : String) : String := String.mk (s.data.map Char.toLower)

/-- Whitespace test used by the trim model. -/
def jsIsWhitespace (c : Char) : Bool :=
  c = ' ' ∨ c = '\t' ∨ c = '\n' ∨ c = '\r'

/-- Model of String.prototype.trim: strip whitespace from both ends. -/
def jsTrim (s : String) : String :=
  String.mk (((s.data.dropWhile jsIsWhitespace).reverse.dropWhile jsIsWhitespace).reverse)

/-- Lookup in a JS Map built as `new Map(xs.map((x) => [key(x), x]))`:
for duplicate keys the map keeps the last binding, hence the reverse. -/
def mapGet {α : Type} (xs : List α) (key : α → String) (k : String) : Option α :=
  xs.reverse.find? (fun x => key x == k)

/-- A gateway row (GatewayRead): the fields this frontend reads. -/
structure Gateway where
  id : String
  name : String
deriving DecidableEq

/-- A board row (BoardRead): the fields this frontend reads. -/
structure Board where
  id : String
  name : String
deriving DecidableEq

/-- A catalog model row (LlmModelRead). `settings` models the nullable
settings JSON object by its key list; `updated_at_time` is the numeric
value `new Date(String(updated_at)).getTime() || 0` that the sort uses. -/
structure LlmModel where
  id : String
  gateway_id : String
  provider : String
  model_id : String
  display_name : String
  created_at : String
  settings : Option (List String)
  updated_at_time : Int
deriving DecidableEq

/-- A provider auth row (LlmProviderAuthRead); `updated_at_time` as for
LlmModel. -/
structure LlmProviderAuth where
  id : String
  gateway_id : String
  provider : String
  config_path : String
  has_secret : Bool
  updated_at_time : Int
deriving DecidableEq

/-- An agent row (AgentRead): the fields this frontend reads. `role`
models `identity_profile?.role` (none when absent or not a string). -/
structure Agent where
  id : String
  name : String
  gateway_id : String
  board_id : Option String
  role : Option String
  primary_model_id : Option String
  fallback_model_ids : Option (List String)
deriving DecidableEq

/-- agentRoleLabel from the source: the trimmed role, or null when the
role is absent or trims to the empty string. -/
def agentRoleLabel (a : Agent) : Option String :=
  match a.role with
  | none => none
  | some role =>
    let normalized := jsTrim role
    if normalized = "" then none else some normalized

/-- Gateway name resolution `gatewaysById.get(gid)?.name ?? "Unknown gateway"`. -/
def gatewayNameOf (gateways : List Gateway) (gid : String) : String :=
  match mapGet gateways (fun g => g.id) gid with
  | some g => g.name
  | none => "Unknown gateway"

/-- gatewayDefaultById from ModelsWorkspace, queried at one gateway id:
the models of that gateway (grouping preserves fetch order) sorted by
String(created_at).localeCompare, first element if any. -/
def gatewayDefault (models : List LlmModel) (gid : String) : Option LlmModel :=
  ((models.filter (fun m : LlmModel => m.gateway_id = gid)).insertionSort
    (fun a b : LlmModel => localeLe a.created_at b.created_at)).head?

/-- The routing table's `primary` field:
`agent.primary_model_id ? modelsById.get(agent.primary_model_id) : null`,
where modelsById ranges over the whole fetched catalog. -/
def tablePrimary (models : List LlmModel) (a : Agent) : Option LlmModel :=
  if strOpt a.primary_model_id ≠ "" then
    mapGet models (fun m => m.id) (strOpt a.primary_model_id)
  else none

/-- The routing table's `effectivePrimary` field: `primary ?? defaultPrimary`. -/
def tableEffectivePrimary (models : List LlmModel) (a : Agent) : Option LlmModel :=
  (tablePrimary models a).orElse (fun _ => gatewayDefault models a.gateway_id)

/-- The routing table's `status` field. -/
def tableStatus (models : List LlmModel) (a : Agent) : RoutingStatus :=
  if (tablePrimary models a).isSome then RoutingStatus.override
  else if (tableEffectivePrimary models a).isSome then RoutingStatus.default
  else RoutingStatus.unconfigured

/-- One row of the agent-routing table, as built by routingRows. -/
structure RoutingRow where
  agent : Agent
  board : Option Board
  role : String
  primary : Option LlmModel
  effectivePrimary : Option LlmModel
  fallbackCount : Nat
  gatewayName : String
  status : RoutingStatus
deriving DecidableEq

/-- The routing table row derived for one agent (body of routingRows). -/
def routingRow (gateways : List Gateway) (models : List LlmModel)
    (boards : List Board) (a : Agent) : RoutingRow :=
  { agent := a
    board :=
      if strOpt a.board_id ≠ "" then mapGet boards (fun b => b.id) (strOpt a.board_id)
      else none
    role := (agentRoleLabel a).getD "Unspecified"
    primary := tablePrimary models a
    effectivePrimary := tableEffectivePrimary models a
    fallbackCount := (a.fallback_model_ids.getD []).length
    gatewayName := gatewayNameOf gateways a.gateway_id
    status := tableStatus models a }

/-- routingRows from ModelsWorkspace. -/
def routingRows (gateways : List Gateway) (models : List LlmModel)
    (boards : List Board) (agents : List Agent) : List RoutingRow :=
  agents.map (routingRow gateways models boards)

/-- Sort keys of the provider-auth table. -/
inductive ProviderSortKey where
  | gateway
  | provider
  | config_path
  | secret
  | updated
deriving DecidableEq

/-- Sort keys of the model-catalog table. -/
inductive ModelSortKey where
  | gateway
  | display_name
  | model_id
  | provider
  | settings
  | updated
deriving DecidableEq

/-- Sort keys of the agent-routing table. -/
inductive RoutingSortKey where
  | agent
  | role
  | gateway
  | board
  | primary
  | status
deriving DecidableEq

/-- Apply the sort direction to a comparator result: ascending keeps it,
descending negates it (the source returns the negated base compare). -/
def dirOrd (d : SortDirection) (o : Ordering) : Ordering :=
  match d with
  | SortDirection.asc => o
  | SortDirection.desc => o.swap

/-- Shape shared by the three table comparators: return the
direction-adjusted base comparison when it is nonzero, otherwise the
direction-adjusted tie-break comparison. -/
def jsTieCmp (d : SortDirection) (base tie : Ordering) : Ordering :=
  if base ≠ Ordering.eq then dirOrd d base else dirOrd d tie

/-- Numeric comparison as the JS comparator `a - b` (sign only). -/
def intCmp (a b : Int) : Ordering :=
  if a < b then Ordering.lt else if b < a then Ordering.gt else Ordering.eq

/-- resolveString of the provider-auth comparator. -/
def providerResolveString (gateways : List Gateway) (k : ProviderSortKey)
    (row : LlmProviderAuth) : String :=
  match k with
  | ProviderSortKey.gateway => gatewayNameOf gateways row.gateway_id
  | ProviderSortKey.provider => row.provider
  | ProviderSortKey.config_path => row.config_path
  | _ => ""

/-- resolveNumber of the provider-auth comparator. -/
def providerResolveNumber (k : ProviderSortKey) (row : LlmProviderAuth) : Int :=
  match k with
  | ProviderSortKey.secret => if row.has_secret then 1 else 0
  | ProviderSortKey.updated => row.updated_at_time
  | _ => 0

/-- The `key === "secret" || key === "updated"` test of the provider sort. -/
def providerIsNumericKey (k : ProviderSortKey) : Bool :=
  match k with
  | ProviderSortKey.secret => true
  | ProviderSortKey.updated => true
  | _ => false

/-- The provider-auth table comparator. -/
def providerCmp (gateways : List Gateway) (k : ProviderSortKey) (d : SortDirection)
    (l r : LlmProviderAuth) : Ordering :=
  if providerIsNumericKey k then
    jsTieCmp d (intCmp (providerResolveNumber k l) (providerResolveNumber k r))
      (localeCmp l.provider r.provider)
  else
    jsTieCmp d
      (localeCmp (jsLower (providerResolveString gateways k l))
        (jsLower (providerResolveString gateways k r)))
      (localeCmp l.provider r.provider)

/-- The not-greater relation of the provider comparator (JS sort places
`l` no later than `r` when the comparator is ≤ 0). -/
def providerLe (gateways : List Gateway) (k : ProviderSortKey) (d : SortDirection)
    (l r : LlmProviderAuth) : Prop :=
  providerCmp gateways k d l r ≠ Ordering.gt

instance (gateways : List Gateway) (k : ProviderSortKey) (d : SortDirection) :
    DecidableRel (providerLe gateways k d) := fun l r => by
  unfold providerLe; infer_instance

/-- providerRows from ModelsWorkspace: the fetched provider-auth rows
sorted by the active comparator. -/
def providerRows (gateways : List Gateway) (k : ProviderSortKey) (d : SortDirection)
    (providerAuth : List LlmProviderAuth) : List LlmProviderAuth :=
  providerAuth.insertionSort (providerLe gateways k d)

/-- resolveString of the model-catalog comparator. -/
def modelResolveString (gateways : List Gateway) (k : ModelSortKey)
    (row : LlmModel) : String :=
  match k with
  | ModelSortKey.gateway => gatewayNameOf gateways row.gateway_id
  | ModelSortKey.display_name => row.display_name
  | ModelSortKey.model_id => row.model_id
  | ModelSortKey.provider => row.provider
  | _ => ""

/-- resolveNumber of the model-catalog comparator
(`row.settings ? Object.keys(row.settings).length : 0`). -/
def modelResolveNumber (k : ModelSortKey) (row : LlmModel) : Int :=
  match k with
  | ModelSortKey.settings =>
    match row.settings with
    | some keys => (keys.length : Int)
    | none => 0
  | ModelSortKey.updated => row.updated_at_time
  | _ => 0

/-- The `key === "settings" || key === "updated"` test of the model sort. -/
def modelIsNumericKey (k : ModelSortKey) : Bool :=
  match k with
  | ModelSortKey.settings => true
  | ModelSortKey.updated => true
  | _ => false

/-- The model-catalog table comparator. -/
def modelCmp (gateways : List Gateway) (k : ModelSortKey) (d : SortDirection)
    (l r : LlmModel) : Ordering :=
  if modelIsNumericKey k then
    jsTieCmp d (intCmp (modelResolveNumber k l) (modelResolveNumber k r))
      (localeCmp l.display_name r.display_name)
  else
    jsTieCmp d
      (localeCmp (jsLower (modelResolveString gateways k l))
        (jsLower (modelResolveString gateways k r)))
      (localeCmp l.display_name r.display_name)

/-- The not-greater relation of the model comparator. -/
def modelLe (gateways : List Gateway) (k : ModelSortKey) (d : SortDirection)
    (l r : LlmModel) : Prop :=
  modelCmp gateways k d l r ≠ Ordering.gt

instance (gateways : List Gateway) (k : ModelSortKey) (d : SortDirection) :
    DecidableRel (modelLe gateways k d) := fun l r => by
  unfold modelLe; infer_instance

/-- modelRows from ModelsWorkspace: the fetched catalog rows sorted by
the active comparator. -/
def modelRows (gateways : List Gateway) (k : ModelSortKey) (d : SortDirection)
    (models : List LlmModel) : List LlmModel :=
  models.insertionSort (modelLe gateways k d)

/-- resolveValue of the routing-table comparator. -/
def routingResolveValue (k : RoutingSortKey) (row : RoutingRow) : String :=
  match k with
  | RoutingSortKey.agent => row.agent.name
  | RoutingSortKey.role => row.role
  | RoutingSortKey.gateway => row.gatewayName
  | RoutingSortKey.board =>
    match row.board with
    | some b => b.name
    | none => "Gateway main"
  | RoutingSortKey.primary =>
    match row.primary with
    | some m => m.display_name
    | none =>
      match row.effectivePrimary with
      | some m => m.display_name
      | none => ""
  | RoutingSortKey.status => routingStatusLabel row.status

/-- The routing-table comparator. -/
def routingCmp (k : RoutingSortKey) (d : SortDirection) (l r : RoutingRow) : Ordering :=
  jsTieCmp d
    (localeCmp (jsLower (routingResolveValue k l)) (jsLower (routingResolveValue k r)))
    (localeCmp l.agent.name r.agent.name)

/-- The not-greater relation of the routing comparator. -/
def routingLe (k : RoutingSortKey) (d : SortDirection) (l r : RoutingRow) : Prop :=
  routingCmp k d l r ≠ Ordering.gt

instance (k : RoutingSortKey) (d : SortDirection) : DecidableRel (routingLe k d) :=
  fun l r => by unfold routingLe; infer_instance

/-- sortedRoutingRows from ModelsWorkspace: the derived routing rows
sorted by the active comparator. -/
def sortedRoutingRows (k : RoutingSortKey) (d : SortDirection)
    (rows : List RoutingRow) : List RoutingRow :=
  rows.insertionSort (routingLe k d)

/-- Draft state of AgentRoutingEditPage (the two useState drafts; null
means "no draft, fall back to the fetched baseline"). -/
structure RoutingDrafts where
  primaryModelDraft : Option String
  fallbackModelDraft : Option (List String)
deriving DecidableEq

/-- Initial draft state of the page (both drafts null). -/
def initialRoutingDrafts : RoutingDrafts :=
  { primaryModelDraft := none, fallbackModelDraft := none }

/-- modelsForGateway on the edit page:
`agent?.gateway_id ? models.filter((m) => m.gateway_id === agent.gateway_id) : []`. -/
def modelsForGateway (models : List LlmModel) (a : Agent) : List LlmModel :=
  if a.gateway_id ≠ "" then
    models.filter (fun m : LlmModel => m.gateway_id = a.gateway_id)
  else []

/-- availableModelIds on the edit page (a Set of the gateway models' ids). -/
def availableModelIds (models : List LlmModel) (a : Agent) : List String :=
  (modelsForGateway models a).map (fun m => m.id)

/-- defaultPrimaryModel on the edit page: `modelsForGateway[0] ?? null`,
the first fetched model of the gateway (not the earliest-created one). -/
def defaultPrimaryModel (models : List LlmModel) (a : Agent) : Option LlmModel :=
  (modelsForGateway models a).head?

/-- baselinePrimaryModelId: `agent?.primary_model_id ?? ""`. -/
def baselinePrimaryModelId (a : Agent) : String := strOpt a.primary_model_id

/-- baselineFallbackModelIds: `agent?.fallback_model_ids ?? []`. -/
def baselineFallbackModelIds (a : Agent) : List String :=
  a.fallback_model_ids.getD []

/-- primaryModelId on the edit page: the draft (else baseline) candidate,
kept only when it names a model of the agent's gateway. -/
def editPrimaryModelId (models : List LlmModel) (a : Agent)
    (primaryModelDraft : Option String) : String :=
  let candidate := primaryModelDraft.getD (baselinePrimaryModelId a)
  if candidate ∈ availableModelIds models a then candidate else ""

/-- Index of the first occurrence of a string in a list (Array.indexOf
for an element known to occur). -/
def idxOf (s : String) : List String → Nat
  | [] => 0
  | x :: xs => if x = s then 0 else idxOf s xs + 1

/-- JS `list.filter((v, index) => f(v, index))`: filter with the element
index threaded through. -/
def jsFilterWithIndex (f : String → Nat → Bool) : List String → Nat → List String
  | [], _ => []
  | x :: xs, i =>
    if f x i then x :: jsFilterWithIndex f xs (i + 1)
    else jsFilterWithIndex f xs (i + 1)

/-- fallbackModelIds on the edit page: the draft (else baseline) list,
keeping entries that differ from the primary, belong to the gateway
catalog, and are the first occurrence of their value. -/
def editFallbackModelIds (models : List LlmModel) (a : Agent)
    (d : RoutingDrafts) : List String :=
  let primaryId := editPrimaryModelId models a d.primaryModelDraft
  let source := d.fallbackModelDraft.getD (baselineFallbackModelIds a)
  jsFilterWithIndex
    (fun v i =>
      decide (v ≠ primaryId ∧ v ∈ availableModelIds models a ∧ idxOf v source = i))
    source 0

/-- selectedPrimary on the edit page:
`primaryModelId ? modelsById.get(primaryModelId) ?? null : null`, where
modelsById is built from the gateway's models only. -/
def editSelectedPrimary (models : List LlmModel) (a : Agent)
    (primaryModelDraft : Option String) : Option LlmModel :=
  let primaryId := editPrimaryModelId models a primaryModelDraft
  if primaryId ≠ "" then
    mapGet (modelsForGateway models a) (fun m => m.id) primaryId
  else none

/-- effectivePrimaryModel on the edit page:
`selectedPrimary ?? defaultPrimaryModel`. -/
def editEffectivePrimaryModel (models : List LlmModel) (a : Agent)
    (primaryModelDraft : Option String) : Option LlmModel :=
  (editSelectedPrimary models a primaryModelDraft).orElse
    (fun _ => defaultPrimaryModel models a)

/-- status on the edit page. -/
def editStatus (models : List LlmModel) (a : Agent)
    (primaryModelDraft : Option String) : RoutingStatus :=
  if editPrimaryModelId models a primaryModelDraft ≠ "" then RoutingStatus.override
  else if (editEffectivePrimaryModel models a primaryModelDraft).isSome then
    RoutingStatus.default
  else RoutingStatus.unconfigured

/-- modelOptions on the edit page: one (value, label) option per gateway
model, labelled `display_name (model_id)`. -/
def modelOptionLabel (m : LlmModel) : String :=
  m.display_name ++ " (" ++ m.model_id ++ ")"

/-- modelOptions on the edit page. -/
def modelOptionsFor (models : List LlmModel) (a : Agent) : List (String × String) :=
  (modelsForGateway models a).map (fun m => (m.id, modelOptionLabel m))

/-- The primary-select onValueChange handler: record the chosen value as
the primary draft and remove it from the fallback draft (seeded from the
baseline when no draft exists yet). -/
def selectPrimary (st : RoutingDrafts) (baselineFallback : List String)
    (value : String) : RoutingDrafts :=
  { primaryModelDraft := some value
    fallbackModelDraft :=
      some ((st.fallbackModelDraft.getD baselineFallback).filter
        (fun item => item ≠ value)) }

/-- The PATCH body sent by handleSave (AgentUpdate fields it sets). -/
structure AgentRoutingPatch where
  primary_model_id : Option String
  fallback_model_ids : Option (List String)
deriving DecidableEq

/-- handleSave on the edit page: none when no request is issued (agent
missing, or the dead validation branch fires), otherwise the PATCH body:
`primaryModelId || null` and the fallback list when non-empty else null. -/
def handleSave (agent : Option Agent) (models : List LlmModel)
    (d : RoutingDrafts) : Option AgentRoutingPatch :=
  match agent with
  | none => none
  | some a =>
    if editPrimaryModelId models a d.primaryModelDraft ≠ "" ∧
        editPrimaryModelId models a d.primaryModelDraft ∉ availableModelIds models a then
      none
    else
      some
        { primary_model_id :=
            if editPrimaryModelId models a d.primaryModelDraft = "" then none
            else some (editPrimaryModelId models a d.primaryModelDraft)
          fallback_model_ids :=
            if (editFallbackModelIds models a d).length > 0 then
              some (editFallbackModelIds models a d)
            else none }

/-- JSON values, for the parsed settings text of the catalog model form. -/
inductive Json where
  | null
  | boolean (b : Bool)
  | number (n : Int)
  | string (s : String)
  | array (elems : List Json)
  | object (fields : List (String × Json))

/-- The settings validation of CatalogModelFormPage.handleSubmit: the
parsed value must be truthy, of typeof "object" and not an array — which
JSON.parse results satisfy exactly when the value is a plain object. -/
def jsonIsPlainObject : Json → Bool
  | Json.object _ => true
  | _ => false

/-- Mode of the catalog model form (`edit` carries the modelId prop,
which the route wrapper defaults to "" when the URL parameter is absent). -/
inductive CatalogMode where
  | create
  | edit (modelIdParam : String)

/-- Body of the model-create POST issued by the catalog form. -/
structure ModelCreateBody where
  gateway_id : String
  provider : String
  model_id : String
  display_name : String
  settings : Option Json

/-- Body (plus path parameter) of the model-update PATCH issued by the
catalog form. -/
structure ModelUpdateBody where
  modelId : String
  provider : String
  model_id : String
  display_name : String
  settings : Option Json

/-- Outcome of one catalog form submission: a validation error message
(setError, no request), or exactly one create/update request. -/
inductive CatalogSubmitResult where
  | failure (message : String)
  | createReq (body : ModelCreateBody)
  | updateReq (body : ModelUpdateBody)

/-- True when the submission issued a request. -/
def catalogIssuedRequest : CatalogSubmitResult → Prop
  | CatalogSubmitResult.failure _ => False
  | _ => True

instance (r : CatalogSubmitResult) : Decidable (catalogIssuedRequest r) := by
  unfold catalogIssuedRequest
  cases r <;> infer_instance

/-- The settings block of CatalogModelFormPage.handleSubmit: none models
the caught-exception path (setError, no request); `some settings` the
settings value handed to the mutation (none = field omitted on create,
`some (object [])` = cleared on edit with blank text). -/
def settingsOutcomeOf (mode : CatalogMode) (settingsText : String)
    (parse : String → Option Json) : Option (Option Json) :=
  if jsTrim settingsText ≠ "" then
    match parse (jsTrim settingsText) with
    | none => none
    | some parsed =>
      if jsonIsPlainObject parsed then some (some parsed) else none
  else
    match mode with
    | CatalogMode.create => some none
    | CatalogMode.edit _ => some (some (Json.object []))

/-- CatalogModelFormPage.handleSubmit. JSON.parse is a platform builtin,
so it is passed in abstractly: `parse s = none` models a parse exception,
`parse s = some v` a successful parse producing `v`. -/
def catalogHandleSubmit (mode : CatalogMode)
    (gatewayId provider modelId displayName settingsText : String)
    (parse : String → Option Json) : CatalogSubmitResult :=
  if gatewayId = "" then CatalogSubmitResult.failure "Select a gateway first."
  else
    let normalizedProvider := jsLower (jsTrim provider)
    let normalizedModelId := jsTrim modelId
    let normalizedDisplayName := jsTrim displayName
    if normalizedProvider = "" ∨ normalizedModelId = "" ∨ normalizedDisplayName = "" then
      CatalogSubmitResult.failure "Provider, model ID, and display name are required."
    else
      match settingsOutcomeOf mode settingsText parse with
      | none => CatalogSubmitResult.failure "Settings must be a valid JSON object."
      | some settings =>
        match mode with
        | CatalogMode.create =>
          CatalogSubmitResult.createReq
            { gateway_id := gatewayId
              provider := normalizedProvider
              model_id := normalizedModelId
              display_name := normalizedDisplayName
              settings := settings }
        | CatalogMode.edit modelIdParam =>
          if modelIdParam = "" then
            CatalogSubmitResult.failure "Missing model identifier."
          else
            CatalogSubmitResult.updateReq
              { modelId := modelIdParam
                provider := normalizedProvider
                model_id := normalizedModelId
                display_name := normalizedDisplayName
                settings := settings }

/-- Mode of the provider auth form. -/
inductive ProviderAuthMode where
  | create
  | edit (providerAuthId : String)

/-- Body of the provider-auth create POST. -/
structure ProviderAuthCreateBody where
  gateway_id : String
  provider : String
  config_path : String
  secret : String
deriving DecidableEq

/-- Body (plus path parameter) of the provider-auth update PATCH; a
`none` secret models the `undefined` that keeps the stored secret. -/
structure ProviderAuthUpdateBody where
  providerAuthId : String
  provider : String
  config_path : String
  secret : Option String
deriving DecidableEq

/-- Outcome of one provider-auth form submission. -/
inductive ProviderAuthSubmitResult where
  | failure (message : String)
  | createReq (body : ProviderAuthCreateBody)
  | updateReq (body : ProviderAuthUpdateBody)
deriving DecidableEq

/-- ProviderAuthFormPage.handleSubmit. -/
def providerAuthHandleSubmit (mode : ProviderAuthMode)
    (gatewayId provider configPath secret : String) : ProviderAuthSubmitResult :=
  if gatewayId = "" then ProviderAuthSubmitResult.failure "Select a gateway first."
  else
    let normalizedProvider := jsLower (jsTrim provider)
    let normalizedConfigPath :=
      jsOr (jsTrim configPath) ("providers." ++ normalizedProvider ++ ".apiKey")
    if normalizedProvider = "" then
      ProviderAuthSubmitResult.failure "Provider is required."
    else
      match mode with
      | ProviderAuthMode.create =>
        let normalizedSecret := jsTrim secret
        if normalizedSecret = "" then
          ProviderAuthSubmitResult.failure "Secret is required."
        else
          ProviderAuthSubmitResult.createReq
            { gateway_id := gatewayId
              provider := normalizedProvider
              config_path := normalizedConfigPath
              secret := normalizedSecret }
      | ProviderAuthMode.edit providerAuthId =>
        if providerAuthId = "" then
          ProviderAuthSubmitResult.failure "Missing provider auth identifier."
        else
          ProviderAuthSubmitResult.updateReq
            { providerAuthId := providerAuthId
              provider := normalizedProvider
              config_path := normalizedConfigPath
              secret := if jsTrim secret ≠ "" then some (jsTrim secret) else none }

/-- Gateway resolution shared by CatalogModelFormPage and
ProviderAuthFormPage: empty string when no gateways were fetched, else
the edited item's gateway when truthy, else a truthy draft naming a
fetched gateway, else a non-empty ?gateway query value naming a fetched
gateway, else the first fetched gateway. `editItemGatewayId` is
`currentItem?.gateway_id` in edit mode and none in create mode. -/
def formGatewayId (gateways : List Gateway) (editItemGatewayId : Option String)
    (gatewayDraft : Option String) (requestedGateway : String) : String :=
  match gateways with
  | [] => ""
  | g0 :: _ =>
    if strOpt editItemGatewayId ≠ "" then strOpt editItemGatewayId
    else if strOpt gatewayDraft ≠ "" ∧
        gateways.any (fun g => g.id == strOpt gatewayDraft) then
      strOpt gatewayDraft
    else if requestedGateway ≠ "" ∧
        gateways.any (fun g => g.id == requestedGateway) then
      requestedGateway
    else g0.id

/-- activeGatewayId on ModelsSyncPage: a truthy draft naming a fetched
gateway, else `gateways[0]?.id ?? ""`. -/
def syncActiveGatewayId (gateways : List Gateway)
    (activeGatewayDraft : Option String) : String :=
  if strOpt activeGatewayDraft ≠ "" ∧
      gateways.any (fun g => g.id == strOpt activeGatewayDraft) then
    strOpt activeGatewayDraft
  else
    match gateways.head? with
    | some g0 => g0.id
    | none => ""

/-- providerCount on the sync page. -/
def providerCount (providerAuth : List LlmProviderAuth) (gid : String) : Nat :=
  (providerAuth.filter (fun item : LlmProviderAuth => item.gateway_id = gid)).length

/-- modelCount on the sync page. -/
def modelCount (models : List LlmModel) (gid : String) : Nat :=
  (models.filter (fun item : LlmModel => item.gateway_id = gid)).length

/-- agentCount on the sync page. -/
def agentCount (agents : List Agent) (gid : String) : Nat :=
  (agents.filter (fun item : Agent => item.gateway_id = gid)).length

/-- primaryOverrideCount on the sync page: agents of the gateway whose
primary_model_id is truthy (`Boolean(item.primary_model_id)`). -/
def primaryOverrideCount (agents : List Agent) (gid : String) : Nat :=
  (agents.filter
    (fun item : Agent => item.gateway_id = gid ∧ strOpt item.primary_model_id ≠ "")).length

/-- Local state of CatalogModelFormPage (its useState hooks). -/
structure CatalogFormState where
  gatewayDraft : Option String
  providerDraft : Option String
  modelIdDraft : Option String
  displayNameDraft : Option String
  settingsDraft : Option String
  error : Option String
deriving DecidableEq

/-- createMutation.onError of the catalog form:
`setError(err.message || "Unable to create model.")`. -/
def catalogCreateOnError (st : CatalogFormState) (message : String) : CatalogFormState :=
  { st with error := some (jsOr message "Unable to create model.") }

/-- updateMutation.onError of the catalog form. -/
def catalogUpdateOnError (st : CatalogFormState) (message : String) : CatalogFormState :=
  { st with error := some (jsOr message "Unable to update model.") }

/-- Local state of AgentRoutingEditPage (its useState hooks). -/
structure RoutingEditState where
  primaryModelDraft : Option String
  fallbackModelDraft : Option (List String)
  error : Option String
deriving DecidableEq

/-- updateAgentMutation.onError of the routing edit page. -/
def updateAgentOnError (st : RoutingEditState) (message : String) : RoutingEditState :=
  { st with error := some (jsOr message "Unable to save agent routing.") }

/-- Local state of ModelsSyncPage (its useState hooks). -/
structure SyncPageState where
  activeGatewayDraft : Option String
  syncMessage : Option String
deriving DecidableEq

/-- syncMutation.onError of the sync page. -/
def syncOnError (st : SyncPageState) (message : String) : SyncPageState :=
  { st with syncMessage := some (jsOr message "Gateway sync failed.") }

/-- pullMutation.onError of the sync page. -/
def pullOnError (st : SyncPageState) (message : String) : SyncPageState :=
  { st with syncMessage := some (jsOr message "Gateway pull failed.") }

/-- Local state of ModelsWorkspace (its useState hooks: the three
sort-key/direction pairs; the page keeps no error or message state). -/
structure ModelsWorkspaceState where
  providerSortKey : ProviderSortKey
  providerSortDirection : SortDirection
  modelSortKey : ModelSortKey
  modelSortDirection : SortDirection
  routingSortKey : RoutingSortKey
  routingSortDirection : SortDirection
deriving DecidableEq

/-- Local state of ProviderAuthFormPage (its useState hooks). -/
structure ProviderAuthFormState where
  gatewayDraft : Option String
  providerDraft : Option String
  configPathDraft : Option String
  secret : String
  error : Option String
deriving DecidableEq

/-- createMutation.onError of the provider auth form:
`setError(err.message || "Unable to create provider auth entry.")`. -/
def providerAuthCreateOnError (st : ProviderAuthFormState)
    (message : String) : ProviderAuthFormState :=
  { st with error := some (jsOr message "Unable to create provider auth entry.") }

/-- updateMutation.onError of the provider auth form. -/
def providerAuthUpdateOnError (st : ProviderAuthFormState)
    (message : String) : ProviderAuthFormState :=
  { st with error := some (jsOr message "Unable to update provider auth entry.") }

/-- The onError handler of deleteProviderMutation on ModelsWorkspace:
the mutation options declare onSuccess only, so there is no error
handler at all — modelled as none. -/
def deleteProviderAuthOnError :
    Option (ModelsWorkspaceState → String → ModelsWorkspaceState) := none

/-- The onError handler of deleteModelMutation on ModelsWorkspace: the
mutation options declare onSuccess only, so there is no error handler at
all — modelled as none. -/
def deleteModelOnError :
    Option (ModelsWorkspaceState → String → ModelsWorkspaceState) := none

/-- A comparison function that is a lawful total comparison: swapping
arguments swaps the result, eq characterizes equality, and strict
results compose transitively. -/
structure LawfulCmp {β : Type} (C : β → β → Ordering) : Prop where
  swap_eq : ∀ a b, C a b = (C b a).swap
  eq_iff : ∀ a b, (C a b = Ordering.eq ↔ a = b)
  lt_trans : ∀ a b c, C a b = Ordering.lt → C b c = Ordering.lt → C a c = Ordering.lt

theorem LawfulCmp.cmp_refl {β : Type} {C : β → β → Ordering} (L : LawfulCmp C)
    (a : β) : C a a = Ordering.eq :=
  (L.eq_iff a a).mpr rfl

theorem LawfulCmp.gt_iff_lt {β : Type} {C : β → β → Ordering} (L : LawfulCmp C)
    (a b : β) : C a b = Ordering.gt ↔ C b a = Ordering.lt := by
  rw [L.swap_eq a b]
  cases C b a <;> simp [Ordering.swap]

theorem LawfulCmp.ne_gt_iff {β : Type} {C : β → β → Ordering} (L : LawfulCmp C)
    (a b : β) : C a b ≠ Ordering.gt ↔ (C a b = Ordering.lt ∨ a = b) := by
  constructor
  · intro h
    cases hC : C a b
    · exact Or.inl rfl
    · exact Or.inr ((L.eq_iff a b).mp hC)
    · exact absurd hC h
  · intro h
    rcases h with h | h
    · simp [h]
    · rw [h, L.cmp_refl]
      simp

theorem LawfulCmp.le_total {β : Type} {C : β → β → Ordering} (L : LawfulCmp C)
    (a b : β) : C a b ≠ Ordering.gt ∨ C b a ≠ Ordering.gt := by
  cases hC : C a b
  · exact Or.inl (by simp [hC])
  · exact Or.inl (by simp [hC])
  · refine Or.inr ?_
    have := (L.gt_iff_lt a b).mp hC
    simp [this]

theorem LawfulCmp.le_trans {β : Type} {C : β → β → Ordering} (L : LawfulCmp C)
    {a b c : β} (h1 : C a b ≠ Ordering.gt) (h2 : C b c ≠ Ordering.gt) :
    C a c ≠ Ordering.gt := by
  rw [L.ne_gt_iff] at h1 h2 ⊢
  rcases h1 with h1 | h1
  · rcases h2 with h2 | h2
    · exact Or.inl (L.lt_trans a b c h1 h2)
    · exact Or.inl (h2 ▸ h1)
  · rcases h2 with h2 | h2
    · exact Or.inl (h1 ▸ h2)
    · exact Or.inr (h1.trans h2)

theorem charsCmp_swap : ∀ as bs : List Char, charsCmp as bs = (charsCmp bs as).swap := by
  intro as
  induction as with
  | nil => intro bs; cases bs <;> simp [charsCmp, Ordering.swap]
  | cons a as ih =>
    intro bs
    cases bs with
    | nil => simp [charsCmp, Ordering.swap]
    | cons b bs =>
      by_cases h1 : a < b
      · have h2 : ¬ b < a := lt_asymm h1
        simp [charsCmp, h1, h2, Ordering.swap]
      · by_cases h2 : b < a
        · simp [charsCmp, h1, h2, Ordering.swap]
        · simp [charsCmp, h1, h2, ih bs]

theorem charsCmp_eq_iff : ∀ as bs : List Char, charsCmp as bs = Ordering.eq ↔ as = bs := by
  intro as
  induction as with
  | nil => intro bs; cases bs <;> simp [charsCmp]
  | cons a as ih =>
    intro bs
    cases bs with
    | nil => simp [charsCmp]
    | cons b bs =>
      by_cases h1 : a < b
      · have hne : a ≠ b := ne_of_lt h1
        simp [charsCmp, h1, hne]
      · by_cases h2 : b < a
        · have hne : a ≠ b := (ne_of_lt h2).symm
          simp [charsCmp, h1, h2, hne]
        · have heq : a = b := le_antisymm (le_of_not_lt h2) (le_of_not_lt h1)
          simp [charsCmp, h1, h2, heq, ih bs]

theorem charsCmp_lt_trans :
    ∀ as bs cs : List Char, charsCmp as bs = Ordering.lt →
      charsCmp bs cs = Ordering.lt → charsCmp as cs = Ordering.lt := by
  intro as
  induction as with
  | nil =>
    intro bs cs h1 h2
    cases bs with
    | nil => simp [charsCmp] at h1
    | cons b bs =>
      cases cs with
      | nil => simp [charsCmp] at h2
      | cons c cs => simp [charsCmp]
  | cons a as ih =>
    intro bs cs h1 h2
    cases bs with
    | nil => simp [charsCmp] at h1
    | cons b bs =>
      cases cs with
      | nil => simp [charsCmp] at h2
      | cons c cs =>
        by_cases hab : a < b
        · by_cases hbc : b < c
          · simp [charsCmp, lt_trans hab hbc]
          · by_cases hcb : c < b
            · simp [charsCmp, hbc, hcb] at h2
            · have hbc2 : b = c := le_antisymm (le_of_not_lt hcb) (le_of_not_lt hbc)
              simp [charsCmp, hbc2 ▸ hab]
        · by_cases hba : b < a
          · simp [charsCmp, hab, hba] at h1
          · have hab2 : a = b := le_antisymm (le_of_not_lt hba) (le_of_not_lt hab)
            by_cases hbc : b < c
            · simp [charsCmp, hab2 ▸ hbc]
            · by_cases hcb : c < b
              · simp [charsCmp, hbc, hcb] at h2
              · have hrec := ih bs cs (by simpa [charsCmp, hab, hba] using h1)
                  (by simpa [charsCmp, hbc, hcb] using h2)
                have hac : ¬ a < c := hab2 ▸ hbc
                have hca : ¬ c < a := hab2 ▸ hcb
                simp [charsCmp, hac, hca, hrec]

theorem stringDataEqIff {a b : String} : a.data = b.data ↔ a = b := by
  constructor
  · intro h
    exact congrArg String.mk h
  · intro h
    rw [h]

theorem localeCmpLawful : LawfulCmp localeCmp := by
  constructor
  · intro a b
    exact charsCmp_swap a.data b.data
  · intro a b
    unfold localeCmp
    rw [charsCmp_eq_iff]
    exact stringDataEqIff
  · intro a b c
    exact charsCmp_lt_trans a.data b.data c.data

theorem intCmp_eq_lt {a b : Int} : intCmp a b = Ordering.lt ↔ a < b := by
  unfold intCmp
  by_cases h : a < b
  · simp [h]
  · by_cases h2 : b < a <;> simp [h, h2]

theorem intCmpLawful : LawfulCmp intCmp := by
  constructor
  · intro a b
    unfold intCmp
    by_cases h1 : a < b
    · have h2 : ¬ b < a := lt_asymm h1
      simp [h1, h2, Ordering.swap]
    · by_cases h2 : b < a <;> simp [h1, h2, Ordering.swap]
  · intro a b
    unfold intCmp
    by_cases h1 : a < b
    · simp [h1, ne_of_lt h1]
    · by_cases h2 : b < a
      · simp [h1, h2, (ne_of_lt h2).symm]
      · simp [h1, h2, le_antisymm (le_of_not_lt h2) (le_of_not_lt h1)]
  · intro a b c h1 h2
    rw [intCmp_eq_lt] at h1 h2 ⊢
    exact lt_trans h1 h2

/-- Generic form of the three table comparators' not-greater relation:
a base comparison pulled back along `fb`, tie-broken by a comparison
pulled back along `ft`, both direction-adjusted. -/
def rowLe {α β γ : Type} (CB : β → β → Ordering) (CT : γ → γ → Ordering)
    (fb : α → β) (ft : α → γ) (d : SortDirection) (l r : α) : Prop :=
  jsTieCmp d (CB (fb l) (fb r)) (CT (ft l) (ft r)) ≠ Ordering.gt

/-- Lexicographic ordering by a base key then a tie key, which is what
the specification describes column sorting to produce. -/
def lexRel {α β γ : Type} (CB : β → β → Ordering) (CT : γ → γ → Ordering)
    (fb : α → β) (ft : α → γ) (l r : α) : Prop :=
  CB (fb l) (fb r) = Ordering.lt ∨ (fb l = fb r ∧ CT (ft l) (ft r) ≠ Ordering.gt)

/-- Apply the sort direction to a relation: descending reverses it (both
the base and the tie-break comparison are negated in the source). -/
def dirRel {α : Type} (d : SortDirection) (rel : α → α → Prop) (l r : α) : Prop :=
  match d with
  | SortDirection.asc => rel l r
  | SortDirection.desc => rel r l

theorem dirRel_iff {α : Type} {d : SortDirection} {R S : α → α → Prop}
    (h : ∀ x y, R x y ↔ S x y) (l r : α) : dirRel d R l r ↔ dirRel d S l r := by
  cases d
  · exact h l r
  · exact h r l

theorem orderingSwap_ne_gt (o : Ordering) : o.swap ≠ Ordering.gt ↔ o ≠ Ordering.lt := by
  cases o <;> simp [Ordering.swap]

theorem jsTieCmp_asc_ne_gt (B T : Ordering) :
    jsTieCmp SortDirection.asc B T ≠ Ordering.gt ↔
      (B = Ordering.lt ∨ (B = Ordering.eq ∧ T ≠ Ordering.gt)) := by
  cases B <;> simp [jsTieCmp, dirOrd]

theorem jsTieCmp_desc_ne_gt (B T : Ordering) :
    jsTieCmp SortDirection.desc B T ≠ Ordering.gt ↔
      (B = Ordering.gt ∨ (B = Ordering.eq ∧ T ≠ Ordering.lt)) := by
  cases B <;> cases T <;> simp [jsTieCmp, dirOrd, Ordering.swap]

theorem rowLe_iff {α β γ : Type} {CB : β → β → Ordering} {CT : γ → γ → Ordering}
    (LB : LawfulCmp CB) (LT : LawfulCmp CT) (fb : α → β) (ft : α → γ)
    (d : SortDirection) (l r : α) :
    rowLe CB CT fb ft d l r ↔ dirRel d (lexRel CB CT fb ft) l r := by
  cases d
  · unfold rowLe dirRel lexRel
    rw [jsTieCmp_asc_ne_gt]
    constructor
    · rintro (h | ⟨h1, h2⟩)
      · exact Or.inl h
      · exact Or.inr ⟨(LB.eq_iff _ _).mp h1, h2⟩
    · rintro (h | ⟨h1, h2⟩)
      · exact Or.inl h
      · exact Or.inr ⟨(LB.eq_iff _ _).mpr h1, h2⟩
  · unfold rowLe dirRel lexRel
    rw [jsTieCmp_desc_ne_gt]
    constructor
    · rintro (h | ⟨h1, h2⟩)
      · exact Or.inl ((LB.gt_iff_lt _ _).mp h)
      · refine Or.inr ⟨((LB.eq_iff _ _).mp h1).symm, ?_⟩
        rw [LT.swap_eq (ft r) (ft l), orderingSwap_ne_gt]
        exact h2
    · rintro (h | ⟨h1, h2⟩)
      · exact Or.inl ((LB.gt_iff_lt _ _).mpr h)
      · refine Or.inr ⟨(LB.eq_iff _ _).mpr h1.symm, ?_⟩
        rw [LT.swap_eq (ft r) (ft l), orderingSwap_ne_gt] at h2
        exact h2

theorem lexRel_total {α β γ : Type} {CB : β → β → Ordering} {CT : γ → γ → Ordering}
    (LB : LawfulCmp CB) (LT : LawfulCmp CT) (fb : α → β) (ft : α → γ) (l r : α) :
    lexRel CB CT fb ft l r ∨ lexRel CB CT fb ft r l := by
  unfold lexRel
  cases hB : CB (fb l) (fb r)
  · exact Or.inl (Or.inl rfl)
  · have he : fb l = fb r := (LB.eq_iff _ _).mp hB
    rcases LT.le_total (ft l) (ft r) with h | h
    · exact Or.inl (Or.inr ⟨he, h⟩)
    · exact Or.inr (Or.inr ⟨he.symm, h⟩)
  · exact Or.inr (Or.inl ((LB.gt_iff_lt _ _).mp hB))

theorem lexRel_trans {α β γ : Type} {CB : β → β → Ordering} {CT : γ → γ → Ordering}
    (LB : LawfulCmp CB) (LT : LawfulCmp CT) (fb : α → β) (ft : α → γ) {l m r : α}
    (h1 : lexRel CB CT fb ft l m) (h2 : lexRel CB CT fb ft m r) :
    lexRel CB CT fb ft l r := by
  unfold lexRel at h1 h2 ⊢
  rcases h1 with h1 | h1
  · rcases h2 with h2 | h2
    · exact Or.inl (LB.lt_trans _ _ _ h1 h2)
    · exact Or.inl (h2.1 ▸ h1)
  · rcases h2 with h2 | h2
    · refine Or.inl ?_
      rw [h1.1]
      exact h2
    · exact Or.inr ⟨h1.1.trans h2.1, LT.le_trans h1.2 h2.2⟩

theorem rowLe_total {α β γ : Type} {CB : β → β → Ordering} {CT : γ → γ → Ordering}
    (LB : LawfulCmp CB) (LT : LawfulCmp CT) (fb : α → β) (ft : α → γ)
    (d : SortDirection) (l r : α) :
    rowLe CB CT fb ft d l r ∨ rowLe CB CT fb ft d r l := by
  rw [rowLe_iff LB LT fb ft d l r, rowLe_iff LB LT fb ft d r l]
  cases d
  · exact lexRel_total LB LT fb ft l r
  · exact lexRel_total LB LT fb ft r l

theorem rowLe_trans {α β γ : Type} {CB : β → β → Ordering} {CT : γ → γ → Ordering}
    (LB : LawfulCmp CB) (LT : LawfulCmp CT) (fb : α → β) (ft : α → γ)
    (d : SortDirection) {l m r : α}
    (h1 : rowLe CB CT fb ft d l m) (h2 : rowLe CB CT fb ft d m r) :
    rowLe CB CT fb ft d l r := by
  rw [rowLe_iff LB LT fb ft d] at h1 h2 ⊢
  cases d
  · exact lexRel_trans LB LT fb ft h1 h2
  · exact lexRel_trans LB LT fb ft h2 h1

/-- Specification ordering of the provider-auth column: numeric for the
secret and updated columns, case-insensitive locale comparison otherwise. -/
def providerColLt (gateways : List Gateway) (k : ProviderSortKey)
    (l r : LlmProviderAuth) : Prop :=
  if providerIsNumericKey k then
    providerResolveNumber k l < providerResolveNumber k r
  else
    localeLt (jsLower (providerResolveString gateways k l))
      (jsLower (providerResolveString gateways k r))

/-- Specification equality of the provider-auth column key. -/
def providerColEq (gateways : List Gateway) (k : ProviderSortKey)
    (l r : LlmProviderAuth) : Prop :=
  if providerIsNumericKey k then
    providerResolveNumber k l = providerResolveNumber k r
  else
    jsLower (providerResolveString gateways k l) =
      jsLower (providerResolveString gateways k r)

/-- Specification ordering of the provider-auth table: by the selected
column in the selected direction, ties broken by provider name with the
tie-break comparison also reversed when descending. -/
def providerSpecRel (gateways : List Gateway) (k : ProviderSortKey)
    (d : SortDirection) (l r : LlmProviderAuth) : Prop :=
  dirRel d
    (fun x y =>
      providerColLt gateways k x y ∨
        (providerColEq gateways k x y ∧ localeLe x.provider y.provider))
    l r

theorem providerLe_num_iff {gateways : List Gateway} {k : ProviderSortKey}
    {d : SortDirection} (hk : providerIsNumericKey k = true)
    (l r : LlmProviderAuth) :
    providerLe gateways k d l r ↔
      rowLe intCmp localeCmp (providerResolveNumber k)
        (fun x : LlmProviderAuth => x.provider) d l r := by
  unfold providerLe providerCmp rowLe
  rw [hk]
  simp

theorem providerLe_str_iff {gateways : List Gateway} {k : ProviderSortKey}
    {d : SortDirection} (hk : providerIsNumericKey k = false)
    (l r : LlmProviderAuth) :
    providerLe gateways k d l r ↔
      rowLe localeCmp localeCmp
        (fun x : LlmProviderAuth => jsLower (providerResolveString gateways k x))
        (fun x : LlmProviderAuth => x.provider) d l r := by
  unfold providerLe providerCmp rowLe
  rw [hk]
  simp

theorem providerLe_total (gateways : List Gateway) (k : ProviderSortKey)
    (d : SortDirection) (l r : LlmProviderAuth) :
    providerLe gateways k d l r ∨ providerLe gateways k d r l := by
  cases hk : providerIsNumericKey k
  · rw [providerLe_str_iff hk, providerLe_str_iff hk]
    exact rowLe_total localeCmpLawful localeCmpLawful _ _ d l r
  · rw [providerLe_num_iff hk, providerLe_num_iff hk]
    exact rowLe_total intCmpLawful localeCmpLawful _ _ d l r

theorem providerLe_trans (gateways : List Gateway) (k : ProviderSortKey)
    (d : SortDirection) (l m r : LlmProviderAuth)
    (h1 : providerLe gateways k d l m) (h2 : providerLe gateways k d m r) :
    providerLe gateways k d l r := by
  cases hk : providerIsNumericKey k
  · rw [providerLe_str_iff hk] at h1 h2 ⊢
    exact rowLe_trans localeCmpLawful localeCmpLawful _ _ d h1 h2
  · rw [providerLe_num_iff hk] at h1 h2 ⊢
    exact rowLe_trans intCmpLawful localeCmpLawful _ _ d h1 h2

theorem providerLe_iff_spec (gateways : List Gateway) (k : ProviderSortKey)
    (d : SortDirection) (l r : LlmProviderAuth) :
    providerLe gateways k d l r ↔ providerSpecRel gateways k d l r := by
  cases hk : providerIsNumericKey k
  · rw [providerLe_str_iff hk, rowLe_iff localeCmpLawful localeCmpLawful]
    unfold providerSpecRel
    refine dirRel_iff (fun x y => ?_) l r
    unfold lexRel providerColLt providerColEq localeLt localeLe
    rw [hk]
    simp
  · rw [providerLe_num_iff hk, rowLe_iff intCmpLawful localeCmpLawful]
    unfold providerSpecRel
    refine dirRel_iff (fun x y => ?_) l r
    unfold lexRel providerColLt providerColEq localeLe
    rw [hk]
    simp [intCmp_eq_lt]

theorem providerRows_perm (gateways : List Gateway) (k : ProviderSortKey)
    (d : SortDirection) (providerAuth : List LlmProviderAuth) :
    (providerRows gateways k d providerAuth).Perm providerAuth :=
  List.perm_insertionSort _ providerAuth

theorem providerRows_sorted (gateways : List Gateway) (k : ProviderSortKey)
    (d : SortDirection) (providerAuth : List LlmProviderAuth) :
    List.Sorted (providerSpecRel gateways k d) (providerRows gateways k d providerAuth) := by
  have hs : List.Sorted (providerLe gateways k d) (providerRows gateways k d providerAuth) := by
    haveI : IsTotal LlmProviderAuth (providerLe gateways k d) :=
      ⟨providerLe_total gateways k d⟩
    haveI : IsTrans LlmProviderAuth (providerLe gateways k d) :=
      ⟨providerLe_trans gateways k d⟩
    exact List.sorted_insertionSort _ providerAuth
  exact List.Pairwise.imp (fun h => (providerLe_iff_spec gateways k d _ _).mp h) hs

/-- Specification ordering of the model-catalog column: numeric for the
settings and updated columns, case-insensitive locale comparison otherwise. -/
def modelColLt (gateways : List Gateway) (k : ModelSortKey)
    (l r : LlmModel) : Prop :=
  if modelIsNumericKey k then
    modelResolveNumber k l < modelResolveNumber k r
  else
    localeLt (jsLower (modelResolveString gateways k l))
      (jsLower (modelResolveString gateways k r))

/-- Specification equality of the model-catalog column key. -/
def modelColEq (gateways : List Gateway) (k : ModelSortKey)
    (l r : LlmModel) : Prop :=
  if modelIsNumericKey k then
    modelResolveNumber k l = modelResolveNumber k r
  else
    jsLower (modelResolveString gateways k l) =
      jsLower (modelResolveString gateways k r)

/-- Specification ordering of the model-catalog table: by the selected
column in the selected direction, ties broken by display name with the
tie-break comparison also reversed when descending. -/
def modelSpecRel (gateways : List Gateway) (k : ModelSortKey)
    (d : SortDirection) (l r : LlmModel) : Prop :=
  dirRel d
    (fun x y =>
      modelColLt gateways k x y ∨
        (modelColEq gateways k x y ∧ localeLe x.display_name y.display_name))
    l r

theorem modelLe_num_iff {gateways : List Gateway} {k : ModelSortKey}
    {d : SortDirection} (hk : modelIsNumericKey k = true) (l r : LlmModel) :
    modelLe gateways k d l r ↔
      rowLe intCmp localeCmp (modelResolveNumber k)
        (fun x : LlmModel => x.display_name) d l r := by
  unfold modelLe modelCmp rowLe
  rw [hk]
  simp

theorem modelLe_str_iff {gateways : List Gateway} {k : ModelSortKey}
    {d : SortDirection} (hk : modelIsNumericKey k = false) (l r : LlmModel) :
    modelLe gateways k d l r ↔
      rowLe localeCmp localeCmp
        (fun x : LlmModel => jsLower (modelResolveString gateways k x))
        (fun x : LlmModel => x.display_name) d l r := by
  unfold modelLe modelCmp rowLe
  rw [hk]
  simp

theorem modelLe_total (gateways : List Gateway) (k : ModelSortKey)
    (d : SortDirection) (l r : LlmModel) :
    modelLe gateways k d l r ∨ modelLe gateways k d r l := by
  cases hk : modelIsNumericKey k
  · rw [modelLe_str_iff hk, modelLe_str_iff hk]
    exact rowLe_total localeCmpLawful localeCmpLawful _ _ d l r
  · rw [modelLe_num_iff hk, modelLe_num_iff hk]
    exact rowLe_total intCmpLawful localeCmpLawful _ _ d l r

theorem modelLe_trans (gateways : List Gateway) (k : ModelSortKey)
    (d : SortDirection) (l m r : LlmModel)
    (h1 : modelLe gateways k d l m) (h2 : modelLe gateways k d m r) :
    modelLe gateways k d l r := by
  cases hk : modelIsNumericKey k
  · rw [modelLe_str_iff hk] at h1 h2 ⊢
    exact rowLe_trans localeCmpLawful localeCmpLawful _ _ d h1 h2
  · rw [modelLe_num_iff hk] at h1 h2 ⊢
    exact rowLe_trans intCmpLawful localeCmpLawful _ _ d h1 h2

theorem modelLe_iff_spec (gateways : List Gateway) (k : ModelSortKey)
    (d : SortDirection) (l r : LlmModel) :
    modelLe gateways k d l r ↔ modelSpecRel gateways k d l r := by
  cases hk : modelIsNumericKey k
  · rw [modelLe_str_iff hk, rowLe_iff localeCmpLawful localeCmpLawful]
    unfold modelSpecRel
    refine dirRel_iff (fun x y => ?_) l r
    unfold lexRel modelColLt modelColEq localeLt localeLe
    rw [hk]
    simp
  · rw [modelLe_num_iff hk, rowLe_iff intCmpLawful localeCmpLawful]
    unfold modelSpecRel
    refine dirRel_iff (fun x y => ?_) l r
    unfold lexRel modelColLt modelColEq localeLe
    rw [hk]
    simp [intCmp_eq_lt]

theorem modelRows_perm (gateways : List Gateway) (k : ModelSortKey)
    (d : SortDirection) (models : List LlmModel) :
    (modelRows gateways k d models).Perm models :=
  List.perm_insertionSort _ models

theorem modelRows_sorted (gateways : List Gateway) (k : ModelSortKey)
    (d : SortDirection) (models : List LlmModel) :
    List.Sorted (modelSpecRel gateways k d) (modelRows gateways k d models) := by
  have hs : List.Sorted (modelLe gateways k d) (modelRows gateways k d models) := by
    haveI : IsTotal LlmModel (modelLe gateways k d) := ⟨modelLe_total gateways k d⟩
    haveI : IsTrans LlmModel (modelLe gateways k d) := ⟨modelLe_trans gateways k d⟩
    exact List.sorted_insertionSort _ models
  exact List.Pairwise.imp (fun h => (modelLe_iff_spec gateways k d _ _).mp h) hs

/-- Specification ordering of the agent-routing table: by the selected
column (all columns are strings, compared case-insensitively by locale
comparison) in the selected direction, ties broken by agent name with
the tie-break comparison also reversed when descending. -/
def routingSpecRel (k : RoutingSortKey) (d : SortDirection)
    (l r : RoutingRow) : Prop :=
  dirRel d
    (fun x y =>
      localeLt (jsLower (routingResolveValue k x)) (jsLower (routingResolveValue k y)) ∨
        (jsLower (routingResolveValue k x) = jsLower (routingResolveValue k y) ∧
          localeLe x.agent.name y.agent.name))
    l r

theorem routingLe_rowLe_iff {k : RoutingSortKey} {d : SortDirection}
    (l r : RoutingRow) :
    routingLe k d l r ↔
      rowLe localeCmp localeCmp
        (fun x : RoutingRow => jsLower (routingResolveValue k x))
        (fun x : RoutingRow => x.agent.name) d l r :=
  Iff.rfl

theorem routingLe_total (k : RoutingSortKey) (d : SortDirection)
    (l r : RoutingRow) : routingLe k d l r ∨ routingLe k d r l := by
  rw [routingLe_rowLe_iff, routingLe_rowLe_iff]
  exact rowLe_total localeCmpLawful localeCmpLawful _ _ d l r

theorem routingLe_trans (k : RoutingSortKey) (d : SortDirection)
    (l m r : RoutingRow) (h1 : routingLe k d l m) (h2 : routingLe k d m r) :
    routingLe k d l r := by
  rw [routingLe_rowLe_iff] at h1 h2 ⊢
  exact rowLe_trans localeCmpLawful localeCmpLawful _ _ d h1 h2

theorem routingLe_iff_spec (k : RoutingSortKey) (d : SortDirection)
    (l r : RoutingRow) : routingLe k d l r ↔ routingSpecRel k d l r := by
  rw [routingLe_rowLe_iff, rowLe_iff localeCmpLawful localeCmpLawful]
  unfold routingSpecRel
  refine dirRel_iff (fun x y => ?_) l r
  unfold lexRel localeLt localeLe
  simp

theorem sortedRoutingRows_perm (k : RoutingSortKey) (d : SortDirection)
    (rows : List RoutingRow) : (sortedRoutingRows k d rows).Perm rows :=
  List.perm_insertionSort _ rows

theorem sortedRoutingRows_sorted (k : RoutingSortKey) (d : SortDirection)
    (rows : List RoutingRow) :
    List.Sorted (routingSpecRel k d) (sortedRoutingRows k d rows) := by
  have hs : List.Sorted (routingLe k d) (sortedRoutingRows k d rows) := by
    haveI : IsTotal RoutingRow (routingLe k d) := ⟨routingLe_total k d⟩
    haveI : IsTrans RoutingRow (routingLe k d) := ⟨routingLe_trans k d⟩
    exact List.sorted_insertionSort _ rows
  exact List.Pairwise.imp (fun h => (routingLe_iff_spec k d _ _).mp h) hs

theorem mapGet_eq_some {α : Type} {xs : List α} {key : α → String} {k : String}
    {x : α} (h : mapGet xs key k = some x) : x ∈ xs ∧ key x = k := by
  unfold mapGet at h
  refine ⟨List.mem_reverse.mp (List.mem_of_find?_eq_some h), ?_⟩
  have := List.find?_some h
  exact eq_of_beq this

theorem mapGet_eq_none_iff {α : Type} {xs : List α} {key : α → String} {k : String} :
    mapGet xs key k = none ↔ ∀ x ∈ xs, key x ≠ k := by
  unfold mapGet
  rw [List.find?_eq_none]
  constructor
  · intro h x hx
    have := h x (List.mem_reverse.mpr hx)
    simpa using this
  · intro h x hx
    have := h x (List.mem_reverse.mp hx)
    simpa using this

theorem mapGet_isSome_of_mem {α : Type} {xs : List α} {key : α → String}
    {k : String} {x : α} (hx : x ∈ xs) (hk : key x = k) :
    ∃ y, mapGet xs key k = some y := by
  cases h : mapGet xs key k
  · exact absurd hk (mapGet_eq_none_iff.mp h x hx)
  · exact ⟨_, rfl⟩

theorem jsFilterWithIndex_mem {f : String → Nat → Bool} {v : String} :
    ∀ (xs : List String) (s : Nat), v ∈ jsFilterWithIndex f xs s →
      ∃ i, s ≤ i ∧ f v i = true := by
  intro xs
  induction xs with
  | nil => intro s h; simp [jsFilterWithIndex] at h
  | cons x xs ih =>
    intro s h
    by_cases hf : f x s
    · rw [jsFilterWithIndex, if_pos hf] at h
      rcases List.mem_cons.mp h with h | h
      · exact ⟨s, le_refl s, h ▸ hf⟩
      · rcases ih (s + 1) h with ⟨i, hi, hfi⟩
        exact ⟨i, le_trans (Nat.le_succ s) hi, hfi⟩
    · rw [jsFilterWithIndex, if_neg hf] at h
      rcases ih (s + 1) h with ⟨i, hi, hfi⟩
      exact ⟨i, le_trans (Nat.le_succ s) hi, hfi⟩

theorem jsFilterWithIndex_nodup {f : String → Nat → Bool}
    (hinj : ∀ v i j, f v i = true → f v j = true → i = j) :
    ∀ (xs : List String) (s : Nat), (jsFilterWithIndex f xs s).Nodup := by
  intro xs
  induction xs with
  | nil => intro s; simp [jsFilterWithIndex]
  | cons x xs ih =>
    intro s
    by_cases hf : f x s
    · rw [jsFilterWithIndex, if_pos hf]
      refine List.nodup_cons.mpr ⟨?_, ih (s + 1)⟩
      intro hmem
      rcases jsFilterWithIndex_mem _ _ hmem with ⟨i, hi, hfi⟩
      have := hinj x s i hf hfi
      omega
    · rw [jsFilterWithIndex, if_neg hf]
      exact ih (s + 1)

theorem editFallbackModelIds_mem {models : List LlmModel} {a : Agent}
    {d : RoutingDrafts} {v : String}
    (h : v ∈ editFallbackModelIds models a d) :
    v ≠ editPrimaryModelId models a d.primaryModelDraft ∧
      v ∈ availableModelIds models a := by
  unfold editFallbackModelIds at h
  rcases jsFilterWithIndex_mem _ _ h with ⟨i, _, hfi⟩
  have hprops := of_decide_eq_true hfi
  exact ⟨hprops.1, hprops.2.1⟩

theorem editFallbackModelIds_nodup (models : List LlmModel) (a : Agent)
    (d : RoutingDrafts) : (editFallbackModelIds models a d).Nodup := by
  unfold editFallbackModelIds
  refine jsFilterWithIndex_nodup ?_ _ 0
  intro v i j hfi hfj
  have hi := of_decide_eq_true hfi
  have hj := of_decide_eq_true hfj
  rw [← hi.2.2, ← hj.2.2]

theorem availableModelIds_mem {models : List LlmModel} {a : Agent} {v : String}
    (h : v ∈ availableModelIds models a) :
    ∃ m ∈ models, m.gateway_id = a.gateway_id ∧ m.id = v := by
  unfold availableModelIds modelsForGateway at h
  by_cases hg : a.gateway_id ≠ ""
  · rw [if_pos hg] at h
    rcases List.mem_map.mp h with ⟨m, hm, hid⟩
    have := List.mem_filter.mp hm
    exact ⟨m, this.1, of_decide_eq_true this.2, hid⟩
  · rw [if_neg hg] at h
    simp at h

theorem gatewayDefault_eq_none_iff (models : List LlmModel) (gid : String) :
    gatewayDefault models gid = none ↔
      models.filter (fun m : LlmModel => m.gateway_id = gid) = [] := by
  unfold gatewayDefault
  rw [List.head?_eq_none_iff]
  constructor
  · intro h
    have hp := List.perm_insertionSort
      (fun a b : LlmModel => localeLe a.created_at b.created_at)
      (models.filter (fun m : LlmModel => m.gateway_id = gid))
    rw [h] at hp
    exact (List.Perm.nil_eq hp).symm
  · intro h
    rw [h]
    rfl

theorem gatewayDefault_min {models : List LlmModel} {gid : String} {m : LlmModel}
    (h : gatewayDefault models gid = some m) :
    m ∈ models.filter (fun x : LlmModel => x.gateway_id = gid) ∧
      ∀ x ∈ models.filter (fun x : LlmModel => x.gateway_id = gid),
        localeLe m.created_at x.created_at := by
  have hlaw := localeCmpLawful
  unfold gatewayDefault at h
  set flist := models.filter (fun x : LlmModel => x.gateway_id = gid) with hflist
  set rel := fun a b : LlmModel => localeLe a.created_at b.created_at with hrel
  have hp := List.perm_insertionSort rel flist
  have hs : List.Sorted rel (flist.insertionSort rel) := by
    haveI : IsTotal LlmModel rel := ⟨fun a b => hlaw.le_total a.created_at b.created_at⟩
    haveI : IsTrans LlmModel rel :=
      ⟨fun a b c h1 h2 => hlaw.le_trans h1 h2⟩
    exact List.sorted_insertionSort rel flist
  cases hsort : flist.insertionSort rel with
  | nil => rw [hsort] at h; simp at h
  | cons hd tl =>
    rw [hsort] at h hp hs
    have hm : hd = m := by simpa using h
    subst hm
    constructor
    · exact hp.mem_iff.mp (List.mem_cons_self hd tl)
    · intro x hx
      rcases List.mem_cons.mp (hp.mem_iff.mpr hx) with hx2 | hx2
      · rw [hx2]
        intro hgt
        rw [hlaw.cmp_refl] at hgt
        simp at hgt
      · exact (List.sorted_cons.mp hs).1 x hx2

/-- Claim C5: for every fetched row set, each table's sorted view
(provider auth, model catalog, agent routing) is a permutation of the
input rows ordered by the selected sort column in the selected direction
— string columns compared case-insensitively by locale comparison, the
secret/settings/updated columns compared numerically — with ties broken
by provider name, display name, or agent name respectively, the
tie-break comparison also reversed when the direction is descending. -/
theorem claim_C5 (gateways : List Gateway)
    (providerAuth : List LlmProviderAuth) (pk : ProviderSortKey) (pd : SortDirection)
    (models : List LlmModel) (mk : ModelSortKey) (md : SortDirection)
    (rows : List RoutingRow) (rk : RoutingSortKey) (rd : SortDirection) :
    ((providerRows gateways pk pd providerAuth).Perm providerAuth ∧
      List.Sorted (providerSpecRel gateways pk pd)
        (providerRows gateways pk pd providerAuth)) ∧
    ((modelRows gateways mk md models).Perm models ∧
      List.Sorted (modelSpecRel gateways mk md) (modelRows gateways mk md models)) ∧
    ((sortedRoutingRows rk rd rows).Perm rows ∧
      List.Sorted (routingSpecRel rk rd) (sortedRoutingRows rk rd rows)) :=
  ⟨⟨providerRows_perm gateways pk pd providerAuth,
      providerRows_sorted gateways pk pd providerAuth⟩,
    ⟨modelRows_perm gateways mk md models, modelRows_sorted gateways mk md models⟩,
    ⟨sortedRoutingRows_perm rk rd rows, sortedRoutingRows_sorted rk rd rows⟩⟩

/-- Claim C3: on the routing edit page, in every draft state the derived
fallback id list excludes the currently selected primary model id, and
the primary-select change handler removes the chosen value from the
fallback draft; hence the displayed fallback list never contains the
selected primary. -/
theorem claim_C3 (models : List LlmModel) (a : Agent) (d : RoutingDrafts)
    (st : RoutingDrafts) (baselineFallback : List String) (value : String) :
    editPrimaryModelId models a d.primaryModelDraft ∉ editFallbackModelIds models a d ∧
    value ∉ (selectPrimary st baselineFallback value).fallbackModelDraft.getD [] := by
  constructor
  · intro hmem
    exact (editFallbackModelIds_mem hmem).1 rfl
  · intro hmem
    unfold selectPrimary at hmem
    simp at hmem

/-- Claim C7 counterexample: the claim covers failing delete requests,
but the two delete mutations on ModelsWorkspace declare no onError
handler at all (their options hold only onSuccess), so a failing delete
stores nothing in any local error state. -/
theorem claim_C7_counterexample :
    deleteProviderAuthOnError = none ∧ deleteModelOnError = none :=
  ⟨rfl, rfl⟩

/-- Claim C7 (amended): for every failing create, update, sync, or pull
request, the page's error handler stores the error message — or a fixed
fallback string when the message is empty — in the page's local error
state and modifies nothing else, issuing no retry; the delete mutations
of the models workspace declare no error handler, so a failing delete
leaves all page state unchanged. -/
theorem claim_C7_amended (cst : CatalogFormState) (rst : RoutingEditState)
    (sst : SyncPageState) (pst : ProviderAuthFormState) (msg : String) :
    catalogCreateOnError cst msg =
      { cst with error := some (if msg = "" then "Unable to create model." else msg) } ∧
    catalogUpdateOnError cst msg =
      { cst with error := some (if msg = "" then "Unable to update model." else msg) } ∧
    providerAuthCreateOnError pst msg =
      { pst with
        error := some (if msg = "" then "Unable to create provider auth entry." else msg) } ∧
    providerAuthUpdateOnError pst msg =
      { pst with
        error := some (if msg = "" then "Unable to update provider auth entry." else msg) } ∧
    updateAgentOnError rst msg =
      { rst with error := some (if msg = "" then "Unable to save agent routing." else msg) } ∧
    syncOnError sst msg =
      { sst with syncMessage := some (if msg = "" then "Gateway sync failed." else msg) } ∧
    pullOnError sst msg =
      { sst with syncMessage := some (if msg = "" then "Gateway pull failed." else msg) } ∧
    deleteProviderAuthOnError = none ∧
    deleteModelOnError = none :=
  ⟨rfl, rfl, rfl, rfl, rfl, rfl, rfl, rfl, rfl⟩

/-- Claim C1 counterexample: for one gateway holding the models
(id "m1", created_at "2") and (id "m2", created_at "1") fetched in that
order, and an agent of that gateway with no primary override, the
routing table's effective primary is the earliest-created model "m2",
but the routing edit page shows "m1" — the first fetched gateway model —
even though "m2" was created strictly earlier; so the edit page does not
show the earliest-created default the claim asserts for both pages. -/
theorem claim_C1_counterexample :
    (fun (ms : List LlmModel) (a : Agent) =>
        (editEffectivePrimaryModel ms a none).map (fun m => m.id) = some "m1" ∧
        (tableEffectivePrimary ms a).map (fun m => m.id) = some "m2" ∧
        (editEffectivePrimaryModel ms a none).map (fun m => m.created_at) = some "2" ∧
        localeLt "1" "2")
      [{ id := "m1", gateway_id := "g1", provider := "openai", model_id := "gpt-a",
          display_name := "A", created_at := "2", settings := none, updated_at_time := 0 },
        { id := "m2", gateway_id := "g1", provider := "openai", model_id := "gpt-b",
          display_name := "B", created_at := "1", settings := none, updated_at_time := 0 }]
      { id := "a1", name := "Agent", gateway_id := "g1", board_id := none,
        role := none, primary_model_id := none, fallback_model_ids := none } := by
  decide

/-- Claim C2 counterexample: an agent of gateway "g1" whose
primary_model_id names a catalog model of another gateway "g2" is shown
as an override on the routing table (which resolves against the whole
catalog) but as using the default on the edit page (which resolves only
within the agent's gateway), so the two pages disagree. -/
theorem claim_C2_counterexample :
    (fun (ms : List LlmModel) (a : Agent) =>
        tableStatus ms a = RoutingStatus.override ∧
        editStatus ms a none = RoutingStatus.default)
      [{ id := "mx", gateway_id := "g2", provider := "openai", model_id := "gpt-x",
          display_name := "X", created_at := "1", settings := none, updated_at_time := 0 },
        { id := "my", gateway_id := "g1", provider := "openai", model_id := "gpt-y",
          display_name := "Y", created_at := "2", settings := none, updated_at_time := 0 }]
      { id := "a1", name := "Agent", gateway_id := "g1", board_id := none,
        role := none, primary_model_id := some "mx", fallback_model_ids := none } := by
  decide

/-- Claim C6 counterexample: an agent whose primary_model_id is the
empty string is non-null yet not counted by the sync page's
primary-override count (the code tests Boolean truthiness, not
non-nullness); and for an agent whose gateway_id is the empty string the
edit page offers no model options even when a catalog model's gateway_id
equals that (empty) agent gateway_id. -/
theorem claim_C6_counterexample :
    (fun (aEmptyPrimary : Agent) (m0 : LlmModel) (aEmptyGateway : Agent) =>
        primaryOverrideCount [aEmptyPrimary] "g1" = 0 ∧
        ([aEmptyPrimary].filter
          (fun x : Agent => x.gateway_id = "g1" ∧ x.primary_model_id ≠ none)).length = 1 ∧
        modelOptionsFor [m0] aEmptyGateway = [] ∧
        [m0].filter (fun m : LlmModel => m.gateway_id = aEmptyGateway.gateway_id) = [m0])
      { id := "a1", name := "Agent", gateway_id := "g1", board_id := none,
        role := none, primary_model_id := some "", fallback_model_ids := none }
      { id := "m0", gateway_id := "", provider := "openai", model_id := "gpt",
        display_name := "M", created_at := "1", settings := none, updated_at_time := 0 }
      { id := "a2", name := "Agent 2", gateway_id := "", board_id := none,
        role := none, primary_model_id := none, fallback_model_ids := none } := by
  decide

/-- Claim C8 counterexample: in edit mode with an empty model identifier
(the route wrapper substitutes "" for a missing URL parameter), a
submission whose gateway is resolved, whose trimmed provider, model id
and display name are non-empty and whose settings text is blank issues
no request — it fails with "Missing model identifier." — contradicting
the claimed if-and-only-if. -/
theorem claim_C8_counterexample :
    catalogHandleSubmit (CatalogMode.edit "") "g1" "openai" "modelx" "Model X" ""
        (fun _ => none) = CatalogSubmitResult.failure "Missing model identifier." ∧
    (("g1" : String) ≠ "" ∧ jsLower (jsTrim "openai") ≠ "" ∧
      jsTrim "modelx" ≠ "" ∧ jsTrim "Model X" ≠ "" ∧ jsTrim "" = "") :=
  ⟨rfl, by decide⟩

/-- Claim C10 counterexample: in edit mode the edited item's gateway id
is returned verbatim, so with fetched gateway list [g1] and an edited
item whose gateway_id is "gX", the resolved gateway id "gX" names no
fetched gateway — gateway selection does not always resolve to an
existing gateway. -/
theorem claim_C10_counterexample :
    formGatewayId [{ id := "g1", name := "Gateway 1" }] (some "gX") none "" = "gX" ∧
    ([{ id := "g1", name := "Gateway 1" }] : List Gateway).all
      (fun g => g.id ≠ "gX") = true := by
  decide

theorem editPrimaryModelId_mem {models : List LlmModel} {a : Agent}
    {pd : Option String} (h : editPrimaryModelId models a pd ≠ "") :
    editPrimaryModelId models a pd ∈ availableModelIds models a := by
  unfold editPrimaryModelId at h ⊢
  by_cases hc : (pd.getD (baselinePrimaryModelId a)) ∈ availableModelIds models a
  · rw [if_pos hc] at h ⊢
    exact hc
  · rw [if_neg hc] at h
    exact absurd rfl h

/-- Claim C4: every routing save request issued by the routing edit page
carries a primary_model_id that is null or the id of a catalog model of
the agent's gateway, and fallback_model_ids that is null or a non-empty,
duplicate-free list of that gateway's catalog model ids not containing
the primary. -/
theorem claim_C4 (a : Agent) (models : List LlmModel) (d : RoutingDrafts)
    (req : AgentRoutingPatch) (h : handleSave (some a) models d = some req) :
    (req.primary_model_id = none ∨
      ∃ pid, req.primary_model_id = some pid ∧
        ∃ m ∈ models, m.gateway_id = a.gateway_id ∧ m.id = pid) ∧
    (req.fallback_model_ids = none ∨
      ∃ l, req.fallback_model_ids = some l ∧ l ≠ [] ∧ l.Nodup ∧
        (∀ v ∈ l, ∃ m ∈ models, m.gateway_id = a.gateway_id ∧ m.id = v) ∧
        (∀ pid, req.primary_model_id = some pid → pid ∉ l)) := by
  replace h :
      (if editPrimaryModelId models a d.primaryModelDraft ≠ "" ∧
          editPrimaryModelId models a d.primaryModelDraft ∉ availableModelIds models a then
        (none : Option AgentRoutingPatch)
      else
        some
          { primary_model_id :=
              if editPrimaryModelId models a d.primaryModelDraft = "" then none
              else some (editPrimaryModelId models a d.primaryModelDraft)
            fallback_model_ids :=
              if (editFallbackModelIds models a d).length > 0 then
                some (editFallbackModelIds models a d)
              else none }) = some req := h
  by_cases hdead : editPrimaryModelId models a d.primaryModelDraft ≠ "" ∧
      editPrimaryModelId models a d.primaryModelDraft ∉ availableModelIds models a
  · rw [if_pos hdead] at h
    simp at h
  · rw [if_neg hdead] at h
    have hreq := (Option.some.inj h).symm
    subst hreq
    constructor
    · by_cases hp : editPrimaryModelId models a d.primaryModelDraft = ""
      · rw [if_pos hp]
        exact Or.inl rfl
      · rw [if_neg hp]
        refine Or.inr ⟨editPrimaryModelId models a d.primaryModelDraft, rfl, ?_⟩
        exact availableModelIds_mem (editPrimaryModelId_mem hp)
    · by_cases hl : (editFallbackModelIds models a d).length > 0
      · rw [if_pos hl]
        refine Or.inr ⟨editFallbackModelIds models a d, rfl, ?_, ?_, ?_, ?_⟩
        · intro hnil
          rw [hnil] at hl
          simp at hl
        · exact editFallbackModelIds_nodup models a d
        · intro v hv
          exact availableModelIds_mem (editFallbackModelIds_mem hv).2
        · intro pid hpid hmem
          by_cases hp : editPrimaryModelId models a d.primaryModelDraft = ""
          · rw [if_pos hp] at hpid
            simp at hpid
          · rw [if_neg hp] at hpid
            have hpe := Option.some.inj hpid
            exact (editFallbackModelIds_mem hmem).1 (hpe ▸ rfl)
      · rw [if_neg hl]
        exact Or.inl rfl

/-- Claim C4 witness: a concrete save — agent of gateway "g1" with a
draft selecting model "m1" as primary and no fallback draft — issues a
request, and the claimed invariants hold for it. -/
theorem claim_C4_witness :
    (fun (a : Agent) (models : List LlmModel) (d : RoutingDrafts)
        (req : AgentRoutingPatch) =>
      handleSave (some a) models d = some req ∧
      ((req.primary_model_id = none ∨
        ∃ pid, req.primary_model_id = some pid ∧
          ∃ m ∈ models, m.gateway_id = a.gateway_id ∧ m.id = pid) ∧
      (req.fallback_model_ids = none ∨
        ∃ l, req.fallback_model_ids = some l ∧ l ≠ [] ∧ l.Nodup ∧
          (∀ v ∈ l, ∃ m ∈ models, m.gateway_id = a.gateway_id ∧ m.id = v) ∧
          (∀ pid, req.primary_model_id = some pid → pid ∉ l))))
      { id := "a1", name := "Agent", gateway_id := "g1", board_id := none,
        role := none, primary_model_id := none, fallback_model_ids := none }
      [{ id := "m1", gateway_id := "g1", provider := "openai", model_id := "gpt",
          display_name := "A", created_at := "1", settings := none, updated_at_time := 0 }]
      { primaryModelDraft := some "m1", fallbackModelDraft := none }
      { primary_model_id := some "m1", fallback_model_ids := none } :=
  ⟨by decide,
    claim_C4 _ _ { primaryModelDraft := some "m1", fallbackModelDraft := none } _
      (by decide)⟩

/-- Claim C9: in the provider auth form, a create requires a non-empty
trimmed secret (otherwise an error results and no request is sent); in
edit mode a blank secret submits undefined so the stored secret is kept;
in both modes a blank config path defaults to
providers.<provider>.apiKey built from the trimmed, lowercased provider;
and an empty trimmed provider blocks submission with an error. -/
theorem claim_C9 (mode : ProviderAuthMode)
    (gatewayId provider configPath secret : String) :
    (mode = ProviderAuthMode.create → jsTrim secret = "" →
      ∃ msg, providerAuthHandleSubmit mode gatewayId provider configPath secret =
        ProviderAuthSubmitResult.failure msg) ∧
    (∀ paId body, mode = ProviderAuthMode.edit paId →
      providerAuthHandleSubmit mode gatewayId provider configPath secret =
        ProviderAuthSubmitResult.updateReq body →
      jsTrim secret = "" → body.secret = none) ∧
    (∀ body,
      providerAuthHandleSubmit mode gatewayId provider configPath secret =
        ProviderAuthSubmitResult.createReq body →
      body.config_path =
        (if jsTrim configPath = "" then
          "providers." ++ jsLower (jsTrim provider) ++ ".apiKey"
        else jsTrim configPath)) ∧
    (∀ body,
      providerAuthHandleSubmit mode gatewayId provider configPath secret =
        ProviderAuthSubmitResult.updateReq body →
      body.config_path =
        (if jsTrim configPath = "" then
          "providers." ++ jsLower (jsTrim provider) ++ ".apiKey"
        else jsTrim configPath)) ∧
    (jsTrim provider = "" →
      ∃ msg, providerAuthHandleSubmit mode gatewayId provider configPath secret =
        ProviderAuthSubmitResult.failure msg) := by
  refine ⟨?_, ?_, ?_, ?_, ?_⟩
  · rintro rfl hsec
    by_cases hg : gatewayId = ""
    · exact ⟨"Select a gateway first.", by simp [providerAuthHandleSubmit, hg]⟩
    · by_cases hp : jsLower (jsTrim provider) = ""
      · exact ⟨"Provider is required.", by simp [providerAuthHandleSubmit, hg, hp]⟩
      · exact ⟨"Secret is required.", by simp [providerAuthHandleSubmit, hg, hp, hsec]⟩
  · rintro paId body rfl heq hsec
    by_cases hg : gatewayId = ""
    · simp [providerAuthHandleSubmit, hg] at heq
    · by_cases hp : jsLower (jsTrim provider) = ""
      · simp [providerAuthHandleSubmit, hg, hp] at heq
      · by_cases hid : paId = ""
        · simp [providerAuthHandleSubmit, hg, hp, hid] at heq
        · simp [providerAuthHandleSubmit, hg, hp, hid, hsec] at heq
          rw [← heq]
  · intro body heq
    cases mode with
    | edit paId =>
      by_cases hg : gatewayId = ""
      · simp [providerAuthHandleSubmit, hg] at heq
      · by_cases hp : jsLower (jsTrim provider) = ""
        · simp [providerAuthHandleSubmit, hg, hp] at heq
        · by_cases hid : paId = ""
          · simp [providerAuthHandleSubmit, hg, hp, hid] at heq
          · simp [providerAuthHandleSubmit, hg, hp, hid] at heq
    | create =>
      by_cases hg : gatewayId = ""
      · simp [providerAuthHandleSubmit, hg] at heq
      · by_cases hp : jsLower (jsTrim provider) = ""
        · simp [providerAuthHandleSubmit, hg, hp] at heq
        · by_cases hsec : jsTrim secret = ""
          · simp [providerAuthHandleSubmit, hg, hp, hsec] at heq
          · simp [providerAuthHandleSubmit, hg, hp, hsec] at heq
            rw [← heq]
            simp [jsOr]
  · intro body heq
    cases mode with
    | create =>
      by_cases hg : gatewayId = ""
      · simp [providerAuthHandleSubmit, hg] at heq
      · by_cases hp : jsLower (jsTrim provider) = ""
        · simp [providerAuthHandleSubmit, hg, hp] at heq
        · by_cases hsec : jsTrim secret = ""
          · simp [providerAuthHandleSubmit, hg, hp, hsec] at heq
          · simp [providerAuthHandleSubmit, hg, hp, hsec] at heq
    | edit paId =>
      by_cases hg : gatewayId = ""
      · simp [providerAuthHandleSubmit, hg] at heq
      · by_cases hp : jsLower (jsTrim provider) = ""
        · simp [providerAuthHandleSubmit, hg, hp] at heq
        · by_cases hid : paId = ""
          · simp [providerAuthHandleSubmit, hg, hp, hid] at heq
          · simp [providerAuthHandleSubmit, hg, hp, hid] at heq
            rw [← heq]
            simp [jsOr]
  · intro hprov
    have hp : jsLower (jsTrim provider) = "" := by
      rw [hprov]
      decide
    by_cases hg : gatewayId = ""
    · exact ⟨"Select a gateway first.", by simp [providerAuthHandleSubmit, hg]⟩
    · exact ⟨"Provider is required.", by simp [providerAuthHandleSubmit, hg, hp]⟩

/-- Claim C9 witness: a blank-whitespace secret blocks a concrete
create; a concrete edit with blank secret and blank config path submits
an undefined secret. -/
theorem claim_C9_witness :
    jsTrim " " = "" ∧
    (∃ msg, providerAuthHandleSubmit ProviderAuthMode.create "g1" "openai" "cfg" " " =
      ProviderAuthSubmitResult.failure msg) ∧
    ({ providerAuthId := "pa1", provider := "openai",
        config_path := "providers.openai.apiKey",
        secret := none } : ProviderAuthUpdateBody).secret = none :=
  ⟨by decide,
    (claim_C9 ProviderAuthMode.create "g1" "openai" "cfg" " ").1 rfl (by decide),
    (claim_C9 (ProviderAuthMode.edit "pa1") "g1" "openai" "" "").2.1 "pa1" _ rfl
      (by decide) (by decide)⟩

theorem settingsOutcomeOf_isSome_iff (mode : CatalogMode) (settingsText : String)
    (parse : String → Option Json) :
    (settingsOutcomeOf mode settingsText parse).isSome ↔
      (jsTrim settingsText = "" ∨
        ∃ kvs, parse (jsTrim settingsText) = some (Json.object kvs)) := by
  unfold settingsOutcomeOf
  by_cases hb : jsTrim settingsText = ""
  · cases mode <;> simp [hb]
  · simp only [hb, ne_eq, not_false_eq_true, if_true, false_or]
    cases hp : parse (jsTrim settingsText) with
    | none => simp
    | some j => cases j <;> simp [jsonIsPlainObject]

/-- Claim C8 (amended): the catalog model form issues a create or update
request if and only if a gateway is resolved, the trimmed provider,
model id and display name are all non-empty, the settings text is blank
or parses as a JSON object, and — in edit mode — the model identifier is
non-empty; on any violation it fails with an error message and sends no
request. In edit mode a blank settings text submits an empty object, in
create mode the settings field is omitted; the submitted provider is
trimmed and lowercased, model id and display name are trimmed. -/
theorem claim_C8_amended (mode : CatalogMode)
    (gatewayId provider modelId displayName settingsText : String)
    (parse : String → Option Json) :
    (catalogIssuedRequest
        (catalogHandleSubmit mode gatewayId provider modelId displayName settingsText parse) ↔
      (gatewayId ≠ "" ∧ jsLower (jsTrim provider) ≠ "" ∧ jsTrim modelId ≠ "" ∧
        jsTrim displayName ≠ "" ∧
        (jsTrim settingsText = "" ∨
          ∃ kvs, parse (jsTrim settingsText) = some (Json.object kvs)) ∧
        (∀ mid, mode = CatalogMode.edit mid → mid ≠ ""))) ∧
    (∀ body,
      catalogHandleSubmit mode gatewayId provider modelId displayName settingsText parse =
        CatalogSubmitResult.createReq body →
      body.gateway_id = gatewayId ∧ body.provider = jsLower (jsTrim provider) ∧
        body.model_id = jsTrim modelId ∧ body.display_name = jsTrim displayName ∧
        (jsTrim settingsText = "" → body.settings = none)) ∧
    (∀ body,
      catalogHandleSubmit mode gatewayId provider modelId displayName settingsText parse =
        CatalogSubmitResult.updateReq body →
      body.provider = jsLower (jsTrim provider) ∧ body.model_id = jsTrim modelId ∧
        body.display_name = jsTrim displayName ∧
        (jsTrim settingsText = "" → body.settings = some (Json.object []))) ∧
    (¬ catalogIssuedRequest
        (catalogHandleSubmit mode gatewayId provider modelId displayName settingsText parse) →
      ∃ msg,
        catalogHandleSubmit mode gatewayId provider modelId displayName settingsText parse =
          CatalogSubmitResult.failure msg) := by
  refine ⟨?_, ?_, ?_, ?_⟩
  · by_cases hg : gatewayId = ""
    · simp [catalogHandleSubmit, hg, catalogIssuedRequest]
    · by_cases hfields : jsLower (jsTrim provider) = "" ∨ jsTrim modelId = "" ∨
          jsTrim displayName = ""
      · simp only [catalogHandleSubmit, hg, if_neg hg, if_pos hfields,
          catalogIssuedRequest]
        constructor
        · intro hfalse
          exact absurd hfalse (by simp)
        · intro hcond
          rcases hfields with hf | hf | hf
          · exact absurd hf hcond.2.1
          · exact absurd hf hcond.2.2.1
          · exact absurd hf hcond.2.2.2.1
      · cases houtcome : settingsOutcomeOf mode settingsText parse with
        | none =>
          have hset : ¬ (jsTrim settingsText = "" ∨
              ∃ kvs, parse (jsTrim settingsText) = some (Json.object kvs)) := by
            rw [← settingsOutcomeOf_isSome_iff mode settingsText parse, houtcome]
            simp
          simp only [catalogHandleSubmit, if_neg hg, if_neg hfields, houtcome,
            catalogIssuedRequest]
          constructor
          · intro hfalse
            exact absurd hfalse (by simp)
          · intro hcond
            exact absurd hcond.2.2.2.2.1 hset
        | some settings =>
          have hset : jsTrim settingsText = "" ∨
              ∃ kvs, parse (jsTrim settingsText) = some (Json.object kvs) := by
            rw [← settingsOutcomeOf_isSome_iff mode settingsText parse, houtcome]
            rfl
          have hfieldsOr := hfields
          push_neg at hfields
          cases mode with
          | create =>
            simp only [catalogHandleSubmit, if_neg hg, houtcome, catalogIssuedRequest]
            simp [hg, hfields.1, hfields.2.1, hfields.2.2, hset]
          | edit mid =>
            by_cases hid : mid = ""
            · subst hid
              simp only [catalogHandleSubmit, if_neg hg, if_neg hfieldsOr, houtcome,
                catalogIssuedRequest]
              constructor
              · intro hfalse
                exact absurd hfalse (by simp)
              · intro hcond
                exact absurd rfl (hcond.2.2.2.2.2 "" rfl)
            · simp only [catalogHandleSubmit, if_neg hg, houtcome,
                catalogIssuedRequest]
              simp [hg, hfields.1, hfields.2.1, hfields.2.2, hset, hid]
  · intro body heq
    by_cases hg : gatewayId = ""
    · simp [catalogHandleSubmit, hg] at heq
    · by_cases hfields : jsLower (jsTrim provider) = "" ∨ jsTrim modelId = "" ∨
          jsTrim displayName = ""
      · simp [catalogHandleSubmit, hg, hfields] at heq
      · cases houtcome : settingsOutcomeOf mode settingsText parse with
        | none => simp [catalogHandleSubmit, hg, hfields, houtcome] at heq
        | some settings =>
          cases mode with
          | edit mid =>
            by_cases hid : mid = ""
            · subst hid
              simp [catalogHandleSubmit, hg, hfields, houtcome] at heq
            · simp [catalogHandleSubmit, hg, hfields, houtcome, hid] at heq
          | create =>
            simp [catalogHandleSubmit, hg, hfields, houtcome] at heq
            rw [← heq]
            refine ⟨rfl, rfl, rfl, rfl, ?_⟩
            intro hb
            have : settingsOutcomeOf CatalogMode.create settingsText parse = some none := by
              unfold settingsOutcomeOf
              simp [hb]
            rw [this] at houtcome
            simpa using (Option.some.inj houtcome).symm
  · intro body heq
    by_cases hg : gatewayId = ""
    · simp [catalogHandleSubmit, hg] at heq
    · by_cases hfields : jsLower (jsTrim provider) = "" ∨ jsTrim modelId = "" ∨
          jsTrim displayName = ""
      · simp [catalogHandleSubmit, hg, hfields] at heq
      · cases houtcome : settingsOutcomeOf mode settingsText parse with
        | none => simp [catalogHandleSubmit, hg, hfields, houtcome] at heq
        | some settings =>
          cases mode with
          | create =>
            simp [catalogHandleSubmit, hg, hfields, houtcome] at heq
          | edit mid =>
            by_cases hid : mid = ""
            · subst hid
              simp [catalogHandleSubmit, hg, hfields, houtcome] at heq
            · simp [catalogHandleSubmit, hg, hfields, houtcome, hid] at heq
              rw [← heq]
              refine ⟨rfl, rfl, rfl, ?_⟩
              intro hb
              have : settingsOutcomeOf (CatalogMode.edit mid) settingsText parse =
                  some (some (Json.object [])) := by
                unfold settingsOutcomeOf
                simp [hb]
              rw [this] at houtcome
              simp [(Option.some.inj houtcome).symm]
  · intro hnone
    cases hres : catalogHandleSubmit mode gatewayId provider modelId displayName
        settingsText parse with
    | failure msg => exact ⟨msg, rfl⟩
    | createReq body =>
      rw [hres] at hnone
      exact absurd trivial hnone
    | updateReq body =>
      rw [hres] at hnone
      exact absurd trivial hnone

/-- Claim C8 witness: a concrete valid create submission issues a
request. -/
theorem claim_C8_witness :
    catalogIssuedRequest
      (catalogHandleSubmit CatalogMode.create "g1" " openai " "m" "d" ""
        (fun _ => none)) :=
  (claim_C8_amended CatalogMode.create "g1" " openai " "m" "d" "" (fun _ => none)).1.mpr
    ⟨by decide, by decide, by decide, by decide, Or.inl (by decide),
      by intro mid h; exact absurd h (by simp)⟩

theorem mapGet_isSome_iff {α : Type} {xs : List α} {key : α → String} {k : String} :
    (mapGet xs key k).isSome ↔ ∃ x ∈ xs, key x = k := by
  constructor
  · intro h
    rcases Option.isSome_iff_exists.mp h with ⟨y, hy⟩
    rcases mapGet_eq_some hy with ⟨hmem, hkey⟩
    exact ⟨y, hmem, hkey⟩
  · rintro ⟨x, hmem, hkey⟩
    rcases mapGet_isSome_of_mem hmem hkey with ⟨y, hy⟩
    rw [hy]
    rfl

theorem editPrimaryModelId_initial_unresolved (models : List LlmModel) (a : Agent)
    (h : strOpt a.primary_model_id = "" ∨
      strOpt a.primary_model_id ∉ availableModelIds models a) :
    editPrimaryModelId models a none = "" := by
  unfold editPrimaryModelId baselinePrimaryModelId
  rcases h with h | h
  · rw [Option.getD_none, h]
    by_cases hmem : ("" : String) ∈ availableModelIds models a
    · rw [if_pos hmem]
    · rw [if_neg hmem]
  · rw [Option.getD_none, if_neg h]

theorem editEffective_initial_default (models : List LlmModel) (a : Agent)
    (h : editPrimaryModelId models a none = "") :
    editEffectivePrimaryModel models a none = (modelsForGateway models a).head? := by
  unfold editEffectivePrimaryModel editSelectedPrimary defaultPrimaryModel
  rw [h]
  simp

theorem gatewayDefault_isSome_iff (models : List LlmModel) (gid : String) :
    (gatewayDefault models gid).isSome ↔
      models.filter (fun m : LlmModel => m.gateway_id = gid) ≠ [] := by
  constructor
  · intro h hnil
    rw [(gatewayDefault_eq_none_iff models gid).mpr hnil] at h
    simp at h
  · intro h
    cases hgd : gatewayDefault models gid
    · exact absurd ((gatewayDefault_eq_none_iff models gid).mp hgd) h
    · rfl

/-- Claim C1 (amended): on the routing table the effective primary is
the catalog model referenced by a truthy primary_model_id when one
resolves in the whole fetched catalog, and otherwise the gateway default
— a model of the agent's gateway with minimal created_at (as strings),
none when the gateway has no models. On the routing edit page (initial
draft state) the override resolves only within the agent's gateway, and
the fallback default is the first fetched model of the agent's gateway,
not the earliest-created one. -/
theorem claim_C1_amended (models : List LlmModel) (a : Agent) :
    (∀ m, strOpt a.primary_model_id ≠ "" →
      mapGet models (fun x => x.id) (strOpt a.primary_model_id) = some m →
      tableEffectivePrimary models a = some m ∧ m ∈ models ∧
        m.id = strOpt a.primary_model_id) ∧
    ((strOpt a.primary_model_id = "" ∨
        mapGet models (fun x => x.id) (strOpt a.primary_model_id) = none) →
      tableEffectivePrimary models a = gatewayDefault models a.gateway_id) ∧
    (gatewayDefault models a.gateway_id = none ↔
      models.filter (fun m : LlmModel => m.gateway_id = a.gateway_id) = []) ∧
    (∀ m, gatewayDefault models a.gateway_id = some m →
      m ∈ models.filter (fun x : LlmModel => x.gateway_id = a.gateway_id) ∧
      ∀ x ∈ models.filter (fun x : LlmModel => x.gateway_id = a.gateway_id),
        localeLe m.created_at x.created_at) ∧
    (∀ m, strOpt a.primary_model_id ≠ "" →
      mapGet (modelsForGateway models a) (fun x => x.id)
        (strOpt a.primary_model_id) = some m →
      editEffectivePrimaryModel models a none = some m) ∧
    ((strOpt a.primary_model_id = "" ∨
        strOpt a.primary_model_id ∉ availableModelIds models a) →
      editEffectivePrimaryModel models a none = (modelsForGateway models a).head?) := by
  refine ⟨?_, ?_, ?_, ?_, ?_, ?_⟩
  · intro m hp hm
    have hprops := mapGet_eq_some hm
    refine ⟨?_, hprops.1, hprops.2⟩
    unfold tableEffectivePrimary tablePrimary
    rw [if_pos hp, hm]
    rfl
  · intro h
    unfold tableEffectivePrimary tablePrimary
    rcases h with h | h
    · rw [if_neg (by simpa using h)]
      rfl
    · by_cases hp : strOpt a.primary_model_id ≠ ""
      · rw [if_pos hp, h]
        rfl
      · rw [if_neg hp]
        rfl
  · exact gatewayDefault_eq_none_iff models a.gateway_id
  · intro m hm
    exact gatewayDefault_min hm
  · intro m hp hm
    have hprops := mapGet_eq_some hm
    have hmem : strOpt a.primary_model_id ∈ availableModelIds models a := by
      unfold availableModelIds
      exact List.mem_map.mpr ⟨m, hprops.1, hprops.2⟩
    have hpid : editPrimaryModelId models a none = strOpt a.primary_model_id := by
      unfold editPrimaryModelId baselinePrimaryModelId
      rw [Option.getD_none, if_pos hmem]
    unfold editEffectivePrimaryModel editSelectedPrimary
    rw [hpid, if_pos hp, hm]
    rfl
  · intro h
    exact editEffective_initial_default models a
      (editPrimaryModelId_initial_unresolved models a h)

/-- Claim C1 witness: with one catalog model "m1" and an agent overriding
to "m1", the routing table's effective primary is that model. -/
theorem claim_C1_witness :
    (fun (models : List LlmModel) (a : Agent) (m : LlmModel) =>
        tableEffectivePrimary models a = some m ∧ m ∈ models ∧
          m.id = strOpt a.primary_model_id)
      [{ id := "m1", gateway_id := "g1", provider := "openai", model_id := "gpt",
          display_name := "A", created_at := "1", settings := none, updated_at_time := 0 }]
      { id := "a1", name := "Agent", gateway_id := "g1", board_id := none,
        role := none, primary_model_id := some "m1", fallback_model_ids := none }
      { id := "m1", gateway_id := "g1", provider := "openai", model_id := "gpt",
        display_name := "A", created_at := "1", settings := none, updated_at_time := 0 } :=
  (claim_C1_amended _ _).1 _ (by decide) (by decide)

/-- Claim C2 (amended): the two pages agree on the routing status for
every agent whose gateway_id is non-empty and whose primary_model_id,
where it names catalog models at all, names only models of the agent's
own gateway; and on the routing table the status is "override" exactly
when a truthy primary_model_id resolves in the fetched catalog. The
pages can disagree otherwise, because the table resolves the override in
the whole catalog while the edit page resolves it only within the
agent's gateway. -/
theorem claim_C2_amended (models : List LlmModel) (a : Agent)
    (hgw : a.gateway_id ≠ "")
    (hsame : ∀ m ∈ models, m.id = strOpt a.primary_model_id →
      m.gateway_id = a.gateway_id) :
    editStatus models a none = tableStatus models a ∧
    (tableStatus models a = RoutingStatus.override ↔
      (strOpt a.primary_model_id ≠ "" ∧
        ∃ m ∈ models, m.id = strOpt a.primary_model_id)) := by
  have hMFG : modelsForGateway models a =
      models.filter (fun m : LlmModel => m.gateway_id = a.gateway_id) := by
    unfold modelsForGateway
    rw [if_pos hgw]
  have hTPsome : (tablePrimary models a).isSome ↔
      (strOpt a.primary_model_id ≠ "" ∧
        ∃ m ∈ models, m.id = strOpt a.primary_model_id) := by
    unfold tablePrimary
    by_cases hp : strOpt a.primary_model_id ≠ ""
    · rw [if_pos hp, mapGet_isSome_iff]
      simp [hp]
    · rw [if_neg hp]
      simp [hp]
  constructor
  · by_cases hover : (tablePrimary models a).isSome
    · have h1 : tableStatus models a = RoutingStatus.override := by
        unfold tableStatus
        rw [if_pos hover]
      rcases hTPsome.mp hover with ⟨hp, m, hmem, hid⟩
      have hg2 := hsame m hmem hid
      have hmemav : strOpt a.primary_model_id ∈ availableModelIds models a := by
        unfold availableModelIds
        rw [hMFG]
        exact List.mem_map.mpr ⟨m, List.mem_filter.mpr ⟨hmem, by simp [hg2]⟩, hid⟩
      have hpid : editPrimaryModelId models a none = strOpt a.primary_model_id := by
        unfold editPrimaryModelId baselinePrimaryModelId
        rw [Option.getD_none, if_pos hmemav]
      have h2 : editStatus models a none = RoutingStatus.override := by
        unfold editStatus
        rw [hpid, if_pos hp]
      rw [h1, h2]
    · have hTPnone : tablePrimary models a = none :=
        Option.not_isSome_iff_eq_none.mp hover
      have hEff : tableEffectivePrimary models a = gatewayDefault models a.gateway_id := by
        unfold tableEffectivePrimary
        rw [hTPnone]
        rfl
      have h1 : tableStatus models a =
          (if (gatewayDefault models a.gateway_id).isSome then RoutingStatus.default
          else RoutingStatus.unconfigured) := by
        unfold tableStatus
        rw [if_neg hover, hEff]
      have hpid0 : editPrimaryModelId models a none = "" := by
        apply editPrimaryModelId_initial_unresolved
        by_cases hp : strOpt a.primary_model_id = ""
        · exact Or.inl hp
        · refine Or.inr ?_
          intro hmemav
          rcases availableModelIds_mem hmemav with ⟨m, hmem, hgwm, hid⟩
          exact hover (hTPsome.mpr ⟨hp, m, hmem, hid⟩)
      have h2 : editStatus models a none =
          (if (modelsForGateway models a).head?.isSome then RoutingStatus.default
          else RoutingStatus.unconfigured) := by
        unfold editStatus
        rw [hpid0, if_neg (by simp), editEffective_initial_default models a hpid0]
      have h3 : (modelsForGateway models a).head?.isSome ↔
          (gatewayDefault models a.gateway_id).isSome := by
        rw [hMFG, gatewayDefault_isSome_iff]
        cases models.filter (fun m : LlmModel => m.gateway_id = a.gateway_id) <;> simp
      rw [h1, h2]
      by_cases hd : (gatewayDefault models a.gateway_id).isSome
      · rw [if_pos hd, if_pos (h3.mpr hd)]
      · rw [if_neg hd, if_neg (fun hh => hd (h3.mp hh))]
  · constructor
    · intro hov
      by_cases hover : (tablePrimary models a).isSome
      · exact hTPsome.mp hover
      · exfalso
        unfold tableStatus at hov
        rw [if_neg hover] at hov
        by_cases he : (tableEffectivePrimary models a).isSome
        · rw [if_pos he] at hov
          simp at hov
        · rw [if_neg he] at hov
          simp at hov
    · intro hc
      have hover := hTPsome.mpr hc
      unfold tableStatus
      rw [if_pos hover]

/-- Claim C2 witness: for a concrete agent whose override names a model
of its own gateway, the two pages agree and the override rule holds. -/
theorem claim_C2_witness :
    (fun (models : List LlmModel) (a : Agent) =>
        editStatus models a none = tableStatus models a ∧
        (tableStatus models a = RoutingStatus.override ↔
          (strOpt a.primary_model_id ≠ "" ∧
            ∃ m ∈ models, m.id = strOpt a.primary_model_id)))
      [{ id := "m1", gateway_id := "g1", provider := "openai", model_id := "gpt",
          display_name := "A", created_at := "1", settings := none, updated_at_time := 0 }]
      { id := "a1", name := "Agent", gateway_id := "g1", board_id := none,
        role := none, primary_model_id := some "m1", fallback_model_ids := none } :=
  claim_C2_amended _ _ (by decide) (by decide)

/-- Claim C6 (amended): the four sync-page summary counts filter by
exact gateway_id equality, the primary-override count additionally
requiring a truthy — non-null and non-empty — primary_model_id; and the
routing edit page's model options are exactly the catalog models whose
gateway_id equals the agent's gateway_id when that id is non-empty, and
empty when the agent's gateway_id is empty. -/
theorem claim_C6_amended (gateways : List Gateway) (draft : Option String)
    (providerAuth : List LlmProviderAuth) (models : List LlmModel)
    (agents : List Agent) (a : Agent) :
    providerCount providerAuth (syncActiveGatewayId gateways draft) =
      providerAuth.countP
        (fun item => item.gateway_id == syncActiveGatewayId gateways draft) ∧
    modelCount models (syncActiveGatewayId gateways draft) =
      models.countP
        (fun item => item.gateway_id == syncActiveGatewayId gateways draft) ∧
    agentCount agents (syncActiveGatewayId gateways draft) =
      agents.countP
        (fun item => item.gateway_id == syncActiveGatewayId gateways draft) ∧
    primaryOverrideCount agents (syncActiveGatewayId gateways draft) =
      agents.countP
        (fun item => decide (item.gateway_id = syncActiveGatewayId gateways draft ∧
          item.primary_model_id ≠ none ∧ item.primary_model_id ≠ some "")) ∧
    (a.gateway_id ≠ "" → modelOptionsFor models a =
      (models.filter (fun m : LlmModel => m.gateway_id = a.gateway_id)).map
        (fun m => (m.id, m.display_name ++ " (" ++ m.model_id ++ ")"))) ∧
    (a.gateway_id = "" → modelOptionsFor models a = []) := by
  have hopt : ∀ x : Option String, (strOpt x ≠ "") ↔ (x ≠ none ∧ x ≠ some "") := by
    intro x
    cases x with
    | none => simp [strOpt]
    | some s => by_cases hs : s = "" <;> simp [strOpt, hs]
  refine ⟨?_, ?_, ?_, ?_, ?_, ?_⟩
  · unfold providerCount
    rw [List.countP_eq_length_filter]
    refine congrArg List.length (List.filter_congr ?_)
    intro x _
    by_cases h : x.gateway_id = syncActiveGatewayId gateways draft <;> simp [h]
  · unfold modelCount
    rw [List.countP_eq_length_filter]
    refine congrArg List.length (List.filter_congr ?_)
    intro x _
    by_cases h : x.gateway_id = syncActiveGatewayId gateways draft <;> simp [h]
  · unfold agentCount
    rw [List.countP_eq_length_filter]
    refine congrArg List.length (List.filter_congr ?_)
    intro x _
    by_cases h : x.gateway_id = syncActiveGatewayId gateways draft <;> simp [h]
  · unfold primaryOverrideCount
    rw [List.countP_eq_length_filter]
    refine congrArg List.length (List.filter_congr ?_)
    intro x _
    refine decide_eq_decide.mpr ?_
    rw [hopt x.primary_model_id]
  · intro h
    unfold modelOptionsFor modelsForGateway modelOptionLabel
    rw [if_pos h]
  · intro h
    unfold modelOptionsFor modelsForGateway
    rw [if_neg (by simp [h])]
    rfl

/-- Claim C6 witness: the model options of a concrete agent with a
non-empty gateway_id are the labelled models of its gateway. -/
theorem claim_C6_witness :
    (fun (models : List LlmModel) (a : Agent) =>
        modelOptionsFor models a =
          (models.filter (fun m : LlmModel => m.gateway_id = a.gateway_id)).map
            (fun m => (m.id, m.display_name ++ " (" ++ m.model_id ++ ")")))
      [{ id := "m1", gateway_id := "g1", provider := "openai", model_id := "gpt",
          display_name := "A", created_at := "1", settings := none, updated_at_time := 0 }]
      { id := "a1", name := "Agent", gateway_id := "g1", board_id := none,
        role := none, primary_model_id := none, fallback_model_ids := none } :=
  (claim_C6_amended [] none [] _ [] _).2.2.2.2.1 (by decide)

theorem gatewayAny_iff (l : List Gateway) (s : String) :
    (l.any (fun g => g.id == s) = true) ↔ s ∈ l.map (fun g => g.id) := by
  simp [List.any_eq_true, List.mem_map, beq_iff_eq]

/-- Claim C10 (amended): with no fetched gateways the resolved gateway
id is the empty string; otherwise the edited item's truthy gateway id is
returned verbatim — even when it names no fetched gateway — and in all
remaining cases resolution yields an existing gateway: a truthy draft
naming a fetched gateway, else a non-empty query value naming a fetched
gateway, else the first fetched gateway; draft or query values naming no
fetched gateway are ignored. The sync page's resolution coincides with
the form resolution with no edited item and no query value. -/
theorem claim_C10_amended (gateways : List Gateway)
    (editItemGatewayId gatewayDraft : Option String) (requestedGateway : String) :
    (gateways = [] →
      formGatewayId gateways editItemGatewayId gatewayDraft requestedGateway = "") ∧
    (gateways ≠ [] → strOpt editItemGatewayId ≠ "" →
      formGatewayId gateways editItemGatewayId gatewayDraft requestedGateway =
        strOpt editItemGatewayId) ∧
    (gateways ≠ [] → strOpt editItemGatewayId = "" →
      (formGatewayId gateways editItemGatewayId gatewayDraft requestedGateway ∈
        gateways.map (fun g => g.id)) ∧
      (strOpt gatewayDraft ≠ "" →
        strOpt gatewayDraft ∈ gateways.map (fun g => g.id) →
        formGatewayId gateways editItemGatewayId gatewayDraft requestedGateway =
          strOpt gatewayDraft) ∧
      ((strOpt gatewayDraft = "" ∨
          strOpt gatewayDraft ∉ gateways.map (fun g => g.id)) →
        requestedGateway ≠ "" → requestedGateway ∈ gateways.map (fun g => g.id) →
        formGatewayId gateways editItemGatewayId gatewayDraft requestedGateway =
          requestedGateway) ∧
      ((strOpt gatewayDraft = "" ∨
          strOpt gatewayDraft ∉ gateways.map (fun g => g.id)) →
        (requestedGateway = "" ∨ requestedGateway ∉ gateways.map (fun g => g.id)) →
        formGatewayId gateways editItemGatewayId gatewayDraft requestedGateway =
          ((gateways.head?).map (fun g => g.id)).getD "")) ∧
    (syncActiveGatewayId gateways gatewayDraft =
      formGatewayId gateways none gatewayDraft "") := by
  refine ⟨?_, ?_, ?_, ?_⟩
  · rintro rfl
    rfl
  · intro hne he
    cases gateways with
    | nil => exact absurd rfl hne
    | cons g0 gs =>
      show (if strOpt editItemGatewayId ≠ "" then strOpt editItemGatewayId
        else if strOpt gatewayDraft ≠ "" ∧
            (g0 :: gs).any (fun g => g.id == strOpt gatewayDraft) then
          strOpt gatewayDraft
        else if requestedGateway ≠ "" ∧
            (g0 :: gs).any (fun g => g.id == requestedGateway) then
          requestedGateway
        else g0.id) = strOpt editItemGatewayId
      rw [if_pos he]
  · intro hne he
    cases gateways with
    | nil => exact absurd rfl hne
    | cons g0 gs =>
      have hshape : formGatewayId (g0 :: gs) editItemGatewayId gatewayDraft
          requestedGateway =
          (if strOpt gatewayDraft ≠ "" ∧
              (g0 :: gs).any (fun g => g.id == strOpt gatewayDraft) then
            strOpt gatewayDraft
          else if requestedGateway ≠ "" ∧
              (g0 :: gs).any (fun g => g.id == requestedGateway) then
            requestedGateway
          else g0.id) := by
        show (if strOpt editItemGatewayId ≠ "" then strOpt editItemGatewayId
          else if strOpt gatewayDraft ≠ "" ∧
              (g0 :: gs).any (fun g => g.id == strOpt gatewayDraft) then
            strOpt gatewayDraft
          else if requestedGateway ≠ "" ∧
              (g0 :: gs).any (fun g => g.id == requestedGateway) then
            requestedGateway
          else g0.id) = _
        rw [if_neg (by simp [he])]
      refine ⟨?_, ?_, ?_, ?_⟩
      · rw [hshape]
        by_cases hd : strOpt gatewayDraft ≠ "" ∧
            (g0 :: gs).any (fun g => g.id == strOpt gatewayDraft)
        · rw [if_pos hd]
          exact (gatewayAny_iff _ _).mp hd.2
        · rw [if_neg hd]
          by_cases hr : requestedGateway ≠ "" ∧
              (g0 :: gs).any (fun g => g.id == requestedGateway)
          · rw [if_pos hr]
            exact (gatewayAny_iff _ _).mp hr.2
          · rw [if_neg hr]
            exact List.mem_map.mpr ⟨g0, List.mem_cons_self g0 gs, rfl⟩
      · intro hdne hdmem
        rw [hshape, if_pos ⟨hdne, (gatewayAny_iff _ _).mpr hdmem⟩]
      · intro hnd hrne hrmem
        have hcond : ¬ (strOpt gatewayDraft ≠ "" ∧
            (g0 :: gs).any (fun g => g.id == strOpt gatewayDraft)) := by
          rcases hnd with h | h
          · intro hc
            exact hc.1 h
          · intro hc
            exact h ((gatewayAny_iff _ _).mp hc.2)
        rw [hshape, if_neg hcond,
          if_pos ⟨hrne, (gatewayAny_iff _ _).mpr hrmem⟩]
      · intro hnd hnr
        have hcond : ¬ (strOpt gatewayDraft ≠ "" ∧
            (g0 :: gs).any (fun g => g.id == strOpt gatewayDraft)) := by
          rcases hnd with h | h
          · intro hc
            exact hc.1 h
          · intro hc
            exact h ((gatewayAny_iff _ _).mp hc.2)
        have hcond2 : ¬ (requestedGateway ≠ "" ∧
            (g0 :: gs).any (fun g => g.id == requestedGateway)) := by
          rcases hnr with h | h
          · intro hc
            exact hc.1 h
          · intro hc
            exact h ((gatewayAny_iff _ _).mp hc.2)
        rw [hshape, if_neg hcond, if_neg hcond2]
        rfl
  · cases gateways with
    | nil =>
      show (if strOpt gatewayDraft ≠ "" ∧
          (List.nil (α := Gateway)).any (fun g => g.id == strOpt gatewayDraft) then
        strOpt gatewayDraft
      else match (List.nil (α := Gateway)).head? with
        | some g0 => g0.id
        | none => "") = ""
      rw [if_neg (by simp)]
      rfl
    | cons g0 gs =>
      by_cases hd : strOpt gatewayDraft ≠ "" ∧
          (g0 :: gs).any (fun g => g.id == strOpt gatewayDraft)
      · show (if strOpt gatewayDraft ≠ "" ∧
            (g0 :: gs).any (fun g => g.id == strOpt gatewayDraft) then
          strOpt gatewayDraft
        else match (g0 :: gs).head? with
          | some g => g.id
          | none => "") =
          (if strOpt (none : Option String) ≠ "" then strOpt (none : Option String)
          else if strOpt gatewayDraft ≠ "" ∧
              (g0 :: gs).any (fun g => g.id == strOpt gatewayDraft) then
            strOpt gatewayDraft
          else if ("" : String) ≠ "" ∧
              (g0 :: gs).any (fun g => g.id == ("" : String)) then
            ("" : String)
          else g0.id)
        rw [if_pos hd, if_neg (by simp [strOpt]), if_pos hd]
      · show (if strOpt gatewayDraft ≠ "" ∧
            (g0 :: gs).any (fun g => g.id == strOpt gatewayDraft) then
          strOpt gatewayDraft
        else match (g0 :: gs).head? with
          | some g => g.id
          | none => "") =
          (if strOpt (none : Option String) ≠ "" then strOpt (none : Option String)
          else if strOpt gatewayDraft ≠ "" ∧
              (g0 :: gs).any (fun g => g.id == strOpt gatewayDraft) then
            strOpt gatewayDraft
          else if ("" : String) ≠ "" ∧
              (g0 :: gs).any (fun g => g.id == ("" : String)) then
            ("" : String)
          else g0.id)
        rw [if_neg hd, if_neg (by simp [strOpt]), if_neg hd, if_neg (by simp)]
        rfl

/-- Claim C10 witness: a concrete resolution with no edited item, a
stale draft and a valid query parameter picks the query's gateway, which
exists in the fetched list. -/
theorem claim_C10_witness :
    (fun (gateways : List Gateway) =>
        formGatewayId gateways none (some "stale") "g2" = "g2" ∧
        formGatewayId gateways none (some "stale") "g2" ∈
          gateways.map (fun g => g.id))
      [{ id := "g1", name := "Gateway 1" }, { id := "g2", name := "Gateway 2" }] := by
  refine ⟨?_, ?_⟩
  · exact ((claim_C10_amended
      [{ id := "g1", name := "Gateway 1" }, { id := "g2", name := "Gateway 2" }]
      none (some "stale") "g2").2.2.1 (by decide) (by decide)).2.2.1
      (Or.inr (by decide)) (by decide) (by decide)
  · exact ((claim_C10_amended
      [{ id := "g1", name := "Gateway 1" }, { id := "g2", name := "Gateway 2" }]
      none (some "stale") "g2").2.2.1 (by decide) (by decide)).1
